import Mathlib

/-
  Verification of the build-option translator recipes of the spack fragment:
  the cp2k, fftw and vasp package files. Each python recipe is shallowly
  embedded as executable Lean definitions; theorems below settle the spec
  claims against those definitions.
-/

set_option maxHeartbeats 1000000
set_option maxRecDepth 4000
set_option linter.unusedVariables false

namespace Spack

/-- Lexicographic comparison of dotted version numbers seen as lists of
numeric components; a list that runs out first compares as smaller. -/
def vle : List Nat → List Nat → Bool
  | [], _ => true
  | _ :: _, [] => false
  | a :: as, b :: bs => if a < b then true else if b < a then false else vle as bs

/-- Version satisfies an upper bound, as in the spack range not
`@:4.999`: at most the bound, or an extension of the bound. -/
def vUpTo (v bound : List Nat) : Bool := vle v bound || bound.isPrefixOf v

/-- Version satisfies a lower bound, as in the spack range `@3:`. -/
def vFrom (v bound : List Nat) : Bool := vle bound v

/-- Version satisfies a point constraint such as `@4.3`. -/
def vAt (v bound : List Nat) : Bool := vFrom v bound && vUpTo v bound

/-- Two digit zero padded rendering of a version component, the python
format specifier 02d used for the elpa define in cp2k. -/
def pad2 (n : Nat) : String := if n < 10 then "0" ++ toString n else toString n

/-- Dotted rendering of a version, python str(version). -/
def versionStr (v : List Nat) : String := String.intercalate "." (v.map toString)

/-- join_path of spack: join two path components with a slash. -/
def jp (a b : String) : String := a ++ "/" ++ b

/-- Space separated join, python " ".join(...). -/
def joinSp (l : List String) : String := String.intercalate " " l

/-- os.path.dirname: the directory part of a path, everything before the
last slash, empty when there is no slash. -/
def dirname (p : String) : String :=
  match p.data.reverse.dropWhile (fun c => ¬c = '/') with
  | [] => ""
  | _ :: before => ⟨before.reverse⟩

/-- spack LibraryList: an ordered list of library file paths. Addition
concatenates; iterating over it yields the file paths. -/
structure LibraryList where
  files : List String
deriving DecidableEq

/-- LibraryList concatenation (python + on LibraryList, also used to add a
plain list of flags such as compiler.stdcxx_libs). -/
def LibraryList.add (a b : LibraryList) : LibraryList := ⟨a.files ++ b.files⟩

/-- Deduplication keeping the first occurrence of each element, in order
(the dedupe of spack), with an accumulator of elements already seen. -/
def dedupGo (seen : List String) : List String → List String
  | [] => []
  | x :: rest =>
    if seen.contains x then dedupGo seen rest else x :: dedupGo (x :: seen) rest

/-- Deduplication keeping the first occurrence of each element. -/
def dedup (l : List String) : List String := dedupGo [] l

/-- LibraryList.directories: deduplicated directory parts of the files, in
order of first appearance. -/
def LibraryList.directories (l : LibraryList) : List String :=
  dedup (l.files.map dirname)

/-- LibraryList.search_flags: -L flags for the directories of the files. -/
def LibraryList.searchFlags (l : LibraryList) : String :=
  joinSp (l.directories.map (fun d => "-L" ++ d))

/-- Environment lookup in an association list, first binding wins
(os.environ access env[key]). -/
def envLookup : List (String × String) → String → Option String
  | [], _ => Option.none
  | (k, v) :: rest, key => if k = key then Option.some v else envLookup rest key

/-- Environment update: replace the first binding of the key, or append a
new binding (os.environ assignment env[key] = value). -/
def envSet : List (String × String) → String → String → List (String × String)
  | [], key, value => [(key, value)]
  | (k, v) :: rest, key, value =>
    if k = key then (key, value) :: rest else (k, v) :: envSet rest key value

/-- One external tool invocation of an invocation plan: working directory,
command, argument list. -/
structure Invocation where
  dir : String
  cmd : String
  args : List String
deriving DecidableEq

/-! ## cp2k: data model -/

/-- The smm variant of cp2k: values are libxsmm (default), libsmm, none. -/
inductive Smm where
  | libxsmm
  | libsmm
  | none
deriving DecidableEq

/-- The compiler identity a Spec carries: name (family) plus the command
strings and extra link libraries the recipe reads off it. -/
structure Compiler where
  name : String
  cc : String
  fc : String
  stdcxxLibs : List String

/-- What a dependency query spec[...] exposes to the recipe: header flag
string, library list, installation prefix, version, and (for mpi) the
fortran compiler wrapper. -/
structure DepInfo where
  headersCppFlags : String
  libs : LibraryList
  prefixDir : String
  version : List Nat
  mpifc : String

/-- A concretized cp2k Spec: version, architecture string, variant values,
compiler, presence flags for optional graph nodes, and the dependency
query capability spec[...] (total, because the Spec is concretized). -/
structure Cp2kSpec where
  version : List Nat
  arch : String
  static : Bool
  mpi : Bool
  plumed : Bool
  smm : Smm
  compiler : Compiler
  hasIntelMkl : Bool
  hasWannier90 : Bool
  query : String → DepInfo

/-- Ambient state the install step reads besides the Spec: the process
environment and the set of files that exist (os.path.isfile). -/
structure World where
  env : List (String × String)
  files : List String

/-- The failures cp2k install can raise while generating the makefile:
the KeyError of the optflags dictionary lookup for an unknown compiler
name, the KeyError of the LIBSMM_PATH environment lookup, and the IOError
when LIBSMM_PATH does not point at an existing file. -/
inductive Err where
  | keyErrorOptflags (name : String)
  | keyErrorEnv (msg : String)
  | ioError (msg : String)
deriving DecidableEq

/-- Classification of the concrete failures under the taxonomy of the
spec: MissingExternalResource covers the two LIBSMM_PATH failures (a
required environment provided path absent or not an existing file). -/
def isMissingExternalResource : Err → Bool
  | Err.keyErrorEnv _ => true
  | Err.ioError _ => true
  | Err.keyErrorOptflags _ => false

/-- Classification of the concrete failures under the taxonomy of the
spec: UnsupportedConfiguration covers the optflags dictionary miss (a
compiler family with no known flag mapping). -/
def isUnsupportedConfiguration : Err → Bool
  | Err.keyErrorOptflags _ => true
  | Err.keyErrorEnv _ => false
  | Err.ioError _ => false

/-- Cp2k.with_static: return the query unchanged when the static variant
is disabled, else append ,static when the query already has a colon and
:static otherwise. -/
def with_static (static : Bool) (query : String) : String :=
  if static = false then query
  else if query.data.contains ':' then query ++ ",static"
  else query ++ ":static"

/-- The gcc entry of the optflags dictionary of Cp2k.install. -/
def optflagsGcc : List String :=
  ["-O2", "-mtune=native", "-funroll-loops", "-ffast-math", "-ftree-vectorize"]

/-- The intel entry of the optflags dictionary of Cp2k.install. -/
def optflagsIntel : List String := ["-O2", "-ip", "-pc64", "-unroll"]

/-- The optflags dictionary of Cp2k.install, keyed by compiler name; a
missing key is the KeyError modelled in translate. -/
def optflagsFor (name : String) : Option (List String) :=
  if name = "gcc" then Option.some optflagsGcc
  else if name = "intel" then Option.some optflagsIntel
  else Option.none

/-- The message of the KeyError raised when LIBSMM_PATH is unset. -/
def libsmmKeyMsg : String :=
  "Point environment variable LIBSMM_PATH to the absolute path of the libsmm.a file"

/-- The message of the IOError raised when LIBSMM_PATH is not a file. -/
def libsmmIoMsg : String :=
  "The file LIBSMM_PATH pointed to does not exist. Note that it must be absolute path."

/-- The dflags channel of Cp2k.install, in the append order of the source:
base defines, -D__FFTSG for intel-mkl, the intel defines, the mpi block
(MPI version, parallel defines, elpa define, wannier90), the smm defines,
and the plumed define. lp is the LIBSMM_PATH value when smm=libsmm. -/
def dflagsOf (s : Cp2kSpec) (lp : Option String) (pre : String) : List String :=
  ["-D__DATA_DIR=" ++ jp pre "data", "-DNDEBUG", "-D__FFTW3", "-D__LIBINT",
   "-D__LIBINT_MAX_AM=6", "-D__LIBDERIV_MAX_AM1=5", "-D__LIBXC"]
  ++ (if s.hasIntelMkl then ["-D__FFTSG"] else [])
  ++ (if s.compiler.name = "intel" then
        ["-D__INTEL", "-D__HAS_ISO_C_BINDING", "-D__USE_CP2K_TRACE", "-D__MKL"]
      else [])
  ++ (if s.mpi then
        (if vFrom (s.query "mpi").version [3] then ["-D__MPI_VERSION=3"]
         else if vFrom (s.query "mpi").version [2] then ["-D__MPI_VERSION=2"]
         else [])
        ++ ["-D__parallel", "-D__LIBPEXSI", "-D__SCALAPACK"]
        ++ (let elpa := s.query (with_static s.static "elpa")
            if vUpTo s.version [4, 999] then
              (if vUpTo elpa.version [2014, 5, 999] then ["-D__ELPA"]
               else if vFrom elpa.version [2014, 6] && vUpTo elpa.version [2015, 10, 999] then
                 ["-D__ELPA2"]
               else ["-D__ELPA3"])
            else
              ["-D__ELPA=" ++ (toString (elpa.version.headD 0) ++ pad2 (elpa.version.getD 1 0))])
        ++ (if s.hasWannier90 then ["-D__WANNIER90"] else [])
      else [])
  ++ (match s.smm with
      | Smm.libsmm => ["-D__HAS_smm_dnn", "-D__HAS_smm_vec"]
      | Smm.libxsmm => ["-D__LIBXSMM"]
      | Smm.none => [])
  ++ (if s.plumed then ["-D__PLUMED2"] else [])

/-- The cppflags channel: starts empty and is extended with dflags just
before the flags are written. -/
def cppflagsOf (s : Cp2kSpec) (lp : Option String) (pre : String) : List String :=
  dflagsOf s lp pre

/-- The cflags channel: the optflags of the compiler, -fp-model precise
for intel, then the cppflags extension. -/
def cflagsOf (s : Cp2kSpec) (opt : List String) (lp : Option String) (pre : String) :
    List String :=
  opt
  ++ (if s.compiler.name = "intel" then ["-fp-model precise"] else [])
  ++ cppflagsOf s lp pre

/-- The cxxflags channel, identical in structure to cflags. -/
def cxxflagsOf (s : Cp2kSpec) (opt : List String) (lp : Option String) (pre : String) :
    List String :=
  opt
  ++ (if s.compiler.name = "intel" then ["-fp-model precise"] else [])
  ++ cppflagsOf s lp pre

/-- The fcflags channel: optflags, the per compiler fortran extras, the
fftw and libxc header flags, the mpi block include paths (elpa include
for cp2k later than 4.999, elpa modules and pexsi fortran), the libxsmm
header flags, then the cppflags extension. -/
def fcflagsOf (s : Cp2kSpec) (opt : List String) (lp : Option String) (pre : String) :
    List String :=
  opt
  ++ (if s.compiler.name = "intel" then
        ["-fp-model source", "-heap-arrays 64",
         "-diag-disable 8290,8291,10010,10212,11060", "-free", "-fpp"]
      else if s.compiler.name = "gcc" then ["-ffree-form", "-ffree-line-length-none"]
      else [])
  ++ [(s.query (with_static s.static "fftw")).headersCppFlags,
      (s.query (with_static s.static "libxc:fortran")).headersCppFlags]
  ++ (if s.mpi then
        (let elpa := s.query (with_static s.static "elpa")
         (if vUpTo s.version [4, 999] then []
          else ["-I" ++ jp (jp (jp elpa.prefixDir "include")
                  ("elpa-" ++ versionStr elpa.version)) "elpa"])
         ++ ["-I" ++ jp (jp (jp elpa.prefixDir "include")
               ("elpa-" ++ versionStr elpa.version)) "modules",
             "-I" ++ jp (s.query "pexsi").prefixDir "fortran"])
      else [])
  ++ (if s.smm = Smm.libxsmm then [(s.query "libxsmm").headersCppFlags] else [])
  ++ cppflagsOf s lp pre

/-- The ldflags channel: the combined fftw, lapack, blas, libxc search
flags; the scalapack search flags appended when mpi is on; the
-Wl,--allow-multiple-definition workaround prepended when
superlu-dist@4.3 is in the spec; the libxsmm search flags appended when
smm=libxsmm. -/
def ldflagsOf (s : Cp2kSpec) : List String :=
  let fftwL := (s.query (with_static s.static "fftw")).libs
  let libxcL := (s.query (with_static s.static "libxc:fortran")).libs
  let lapackL := (s.query (with_static s.static "lapack")).libs
  let blasL := (s.query (with_static s.static "blas")).libs
  let base := [LibraryList.searchFlags (((fftwL.add lapackL).add blasL).add libxcL)]
  let l1 := base ++
    (if s.mpi then [(s.query (with_static s.static "scalapack")).libs.searchFlags] else [])
  let l2 :=
    if s.mpi && vAt (s.query "superlu-dist").version [4, 3] then
      "-Wl,--allow-multiple-definition" :: l1
    else l1
  l2 ++ (if s.smm = Smm.libxsmm then [(s.query "libxsmm").libs.searchFlags] else [])

/-- The libs channel (link library list), in the append order of the
source: libint, the mpi block (elpa, pexsi, superlu-dist, parmetis,
metis, scalapack, mpi:cxx, the compiler stdcxx libs, wannier90), the smm
library, plumed, then libxc, fftw, lapack, blas. -/
def libsOf (s : Cp2kSpec) (lp : Option String) : List String :=
  (s.query (with_static s.static "libint")).libs.files
  ++ (if s.mpi then
        (s.query (with_static s.static "elpa")).libs.files
        ++ (s.query "pexsi").libs.files
        ++ (s.query "superlu-dist").libs.files
        ++ (s.query "parmetis").libs.files
        ++ (s.query "metis").libs.files
        ++ (s.query (with_static s.static "scalapack")).libs.files
        ++ (s.query (with_static s.static "mpi:cxx")).libs.files
        ++ s.compiler.stdcxxLibs
        ++ (if s.hasWannier90 then [jp (jp (s.query "wannier90").prefixDir "lib") "libwannier.a"]
            else [])
      else [])
  ++ (match s.smm with
      | Smm.libsmm => [lp.getD ""]
      | Smm.libxsmm => (s.query "libxsmm").libs.files
      | Smm.none => [])
  ++ (if s.plumed then (s.query "plumed").libs.files else [])
  ++ (s.query (with_static s.static "libxc:fortran")).libs.files
  ++ (s.query (with_static s.static "fftw")).libs.files
  ++ (s.query (with_static s.static "lapack")).libs.files
  ++ (s.query (with_static s.static "blas")).libs.files

/-- The FC and LD command: the plain fortran compiler without mpi, the
mpi fortran wrapper with mpi. -/
def fcOf (s : Cp2kSpec) : String :=
  if s.mpi = false then s.compiler.fc else (s.query "mpi").mpifc

/-- The sequence of mkf.write calls of Cp2k.install, each element one
written string: the plumed include line, CC, CPP, AR, FC, LD and the
flag lines, with the LDFLAGS_C line only for intel. -/
def writesOf (s : Cp2kSpec) (opt : List String) (lp : Option String) (pre : String) :
    List String :=
  (if s.plumed then
     ["include " ++
        jp (jp (jp (jp (jp (s.query "plumed").prefixDir "lib") "plumed") "src") "lib")
          "Plumed.inc" ++ "\n\n"]
   else [])
  ++ ["CC = " ++ s.compiler.cc ++ "\n"]
  ++ (if s.compiler.name = "intel" then
        ["CPP = # " ++ s.compiler.cc ++ " -P\n", "AR = xiar -r\n"]
      else ["CPP = # " ++ s.compiler.cc ++ " -E\n", "AR = ar -r\n"])
  ++ ["FC = " ++ fcOf s ++ "\n", "LD = " ++ fcOf s ++ "\n\n"]
  ++ ["DFLAGS = " ++ joinSp (dflagsOf s lp pre) ++ "\n\n",
      "CPPFLAGS = " ++ joinSp (cppflagsOf s lp pre) ++ "\n\n",
      "CFLAGS = " ++ joinSp (cflagsOf s opt lp pre) ++ "\n\n",
      "CXXFLAGS = " ++ joinSp (cxxflagsOf s opt lp pre) ++ "\n\n",
      "FCFLAGS = " ++ joinSp (fcflagsOf s opt lp pre) ++ "\n\n",
      "LDFLAGS = " ++ joinSp (ldflagsOf s) ++ "\n\n"]
  ++ (if s.compiler.name = "intel" then
        ["LDFLAGS_C = " ++ (joinSp (ldflagsOf s) ++ " -nofor_main") ++ "\n\n"]
      else [])
  ++ ["LIBS = " ++ joinSp (libsOf s lp) ++ "\n\n"]

/-- Everything Cp2k.install computes for the makefile: the per channel
flag lists at the moment they are written, and the written strings. -/
structure Cp2kResult where
  dflags : List String
  cppflags : List String
  cflags : List String
  cxxflags : List String
  fcflags : List String
  ldflags : List String
  libs : List String
  writes : List String
deriving DecidableEq

/-- Assemble the result of a successful run of the makefile generation. -/
def mkCp2kResult (s : Cp2kSpec) (opt : List String) (lp : Option String) (pre : String) :
    Cp2kResult :=
  ⟨dflagsOf s lp pre, cppflagsOf s lp pre, cflagsOf s opt lp pre, cxxflagsOf s opt lp pre,
   fcflagsOf s opt lp pre, ldflagsOf s, libsOf s lp, writesOf s opt lp pre⟩

/-- The makefile generation step of Cp2k.install as a fallible
translation: the optflags lookup fails first for an unknown compiler
name; with smm=libsmm the LIBSMM_PATH environment variable must be set
and point at an existing file; otherwise the flag channels and written
lines are produced. pre is the installation prefix of the package. -/
def translate (s : Cp2kSpec) (w : World) (pre : String) : Except Err Cp2kResult :=
  match optflagsFor s.compiler.name with
  | Option.none => Except.error (Err.keyErrorOptflags s.compiler.name)
  | Option.some opt =>
    if s.smm = Smm.libsmm then
      match envLookup w.env "LIBSMM_PATH" with
      | Option.none => Except.error (Err.keyErrorEnv libsmmKeyMsg)
      | Option.some path =>
        if w.files.contains path then
          Except.ok (mkCp2kResult s opt (Option.some path) pre)
        else Except.error (Err.ioError libsmmIoMsg)
    else Except.ok (mkCp2kResult s opt Option.none pre)

/-! ## cp2k: the PWD handling around the make step -/

/-- The makefiles stage of Cp2k.install around the make invocation: read
env PWD (a missing key aborts the stage), set it to the current working
directory, run make (a failing make aborts the stage), restore the saved
value. Returns the environment after the stage when it completes. -/
def pwdStage (env : List (String × String)) (cwd : String) (makeOk : Bool) :
    Option (List (String × String)) :=
  match envLookup env "PWD" with
  | Option.none => Option.none
  | Option.some pwdBackup =>
    let env1 := envSet env "PWD" cwd
    if makeOk then Option.some (envSet env1 "PWD" pwdBackup) else Option.none

/-! ## Makefile fragment lines -/

/-- Split a character list at newline characters; always returns at least
one (possibly empty) line, like python splitting text on newlines. -/
def splitLines : List Char → List (List Char)
  | [] => [[]]
  | c :: rest =>
    if c = '\n' then [] :: splitLines rest
    else
      let ls := splitLines rest
      (c :: ls.headD []) :: ls.tail

/-- A line is a KEY = value line when it splits as a nonempty key, the
three character separator, and a value. -/
def IsKVLine (l : List Char) : Prop :=
  ∃ k v : List Char, l = k ++ ' ' :: '=' :: ' ' :: v ∧ k ≠ []

/-- Whether a character list starts with the three character separator of
a KEY = value line. -/
def startsSep : List Char → Bool
  | ' ' :: '=' :: ' ' :: _ => true
  | _ => false

/-- Whether a character list contains the KEY = value separator anywhere. -/
def containsSep : List Char → Bool
  | [] => false
  | c :: rest => startsSep (c :: rest) || containsSep rest

/-! ## fftw: data model -/

/-- A concretized fftw Spec: version, architecture string, the boolean
variants, and the compiler data the recipe reads (name, version string,
presence of the f77 and fc commands, the openmp flag). -/
structure FftwSpec where
  version : List Nat
  arch : String
  float : Bool
  double : Bool
  longDouble : Bool
  quad : Bool
  openmp : Bool
  mpi : Bool
  pfftPatches : Bool
  compilerName : String
  compilerVersion : String
  f77 : Option String
  fc : Option String
  openmpFlag : String

/-- The failure Fftw.configure can raise: the InstallError for openmp
with an apple clang. -/
inductive FftwErr where
  | installError (msg : String)
deriving DecidableEq

/-- Generic containment of a character sequence in a character list,
python substring membership. -/
def listContainsSeq (pat : List Char) : List Char → Bool
  | [] => pat.isEmpty
  | c :: rest => pat.isPrefixOf (c :: rest) || listContainsSeq pat rest

/-- The base configure options of Fftw.configure: prefix, shared,
threads, the fortran disable when f77 or fc is missing, and the fftw-2
type prefix. -/
def fftwBase (s : FftwSpec) (pre : String) : List String :=
  ["--prefix=" ++ pre, "--enable-shared", "--enable-threads"]
  ++ (if s.f77.isNone || s.fc.isNone then ["--disable-fortran"] else [])
  ++ (if vUpTo s.version [2] then ["--enable-type-prefix"] else [])

/-- The shared configure options list of Fftw.configure: the base
options, the openmp handling (with the apple clang error and the CFLAGS
insertion at position zero for fftw-2), and the mpi enable appended
last. -/
def fftwOptions (s : FftwSpec) (pre : String) : Except FftwErr (List String) :=
  if s.openmp then
    if s.compilerName = "clang" && "-apple".data.isSuffixOf s.compilerVersion.data then
      Except.error (FftwErr.installError "Apple clang does not support OpenMP")
    else
      let o1 := fftwBase s pre ++ ["--enable-openmp"]
      let o2 := if vUpTo s.version [2] then ("CFLAGS=" ++ s.openmpFlag) :: o1 else o1
      Except.ok (o2 ++ (if s.mpi then ["--enable-mpi"] else []))
  else Except.ok (fftwBase s pre ++ (if s.mpi then ["--enable-mpi"] else []))

/-- The invocation plan of Fftw.configure: one ../configure run per
enabled precision in the order double, float, long-double, quad, each in
its own subdirectory; long-double and quad are additionally guarded by
the version range @3:; sse2 options only for x86_64 at @3:. -/
def fftwConfigure (s : FftwSpec) (pre : String) : Except FftwErr (List Invocation) :=
  match fftwOptions s pre with
  | Except.error e => Except.error e
  | Except.ok options =>
    let sse :=
      if listContainsSeq "x86_64".data s.arch.data && vFrom s.version [3] then
        ["--enable-sse2"]
      else []
    Except.ok (
      (if s.double then [⟨"double", "../configure", options ++ sse⟩] else [])
      ++ (if s.float then [⟨"float", "../configure", "--enable-float" :: (options ++ sse)⟩]
          else [])
      ++ (if vFrom s.version [3] && s.longDouble then
            [⟨"long-double", "../configure", "--enable-long-double" :: options⟩]
          else [])
      ++ (if vFrom s.version [3] && s.quad then
            [⟨"quad", "../configure", "--enable-quad-precision" :: options⟩]
          else []))

/-- The invocation plan of Fftw.build: one make run per enabled precision
subdirectory, with no version guard on long-double and quad. -/
def fftwBuild (s : FftwSpec) : List Invocation :=
  (if s.double then [⟨"double", "make", []⟩] else [])
  ++ (if s.float then [⟨"float", "make", []⟩] else [])
  ++ (if s.longDouble then [⟨"long-double", "make", []⟩] else [])
  ++ (if s.quad then [⟨"quad", "make", []⟩] else [])

/-- The last_query of a spack Spec exposes extra_parameters, the comma
separated names after the colon of the query string; Fftw.libs chooses
static libraries exactly when the string static is among them. -/
def fftwLibsCall (extraParameters : List String) (prefixDir : String) :
    (List String × String × Bool × Bool) :=
  let shared := if extraParameters.contains "static" then false else true
  (["libfftw3"], prefixDir, shared, true)

/-! ## vasp: data model -/

/-- Vasp.setup_environment: the variables set on the build environment,
in order. -/
def vaspSetupEnvironment (prefixDir : String) : List (String × String) :=
  [("CRAYPE_LINK_TYPE", "static"), ("INSTALL_DIR", prefixDir)]

/-- Apply a list of variable assignments to an environment, first to
last. -/
def applySets (env : List (String × String)) (sets : List (String × String)) :
    List (String × String) :=
  sets.foldl (fun e kv => envSet e kv.1 kv.2) env

/-- The invocation plan of Vasp.install: a single make all in the staged
source directory; there is no configure invocation and no generated
configuration file. -/
def vaspInstall : List Invocation := [⟨".", "make", ["all"]⟩]

/-! ## Helper lemmas -/

/-- Appending on the left preserves list inclusion. -/
theorem sub_app_left {α : Type} (A : List α) {B C : List α} (h : B ⊆ C) :
    A ++ B ⊆ A ++ C := by
  intro x hx
  rcases List.mem_append.mp hx with h1 | h2
  · exact List.mem_append.mpr (Or.inl h1)
  · exact List.mem_append.mpr (Or.inr (h h2))

/-- A list is included in any extension by a middle segment. -/
theorem sub_nil_left {α : Type} (P : List α) {B : List α} : B ⊆ P ++ B := by
  intro x hx
  exact List.mem_append.mpr (Or.inr hx)

/-- The characters of an appended string are the appended characters. -/
theorem str_data_append (a b : String) : (a ++ b).data = a.data ++ b.data :=
  String.data_append a b

/-- Two strings differ when an appended extension of the first differs
from the second on an initial segment the first already covers. -/
theorem append_ne_of_take_ne (s x t : String) (n : Nat) (hn : n ≤ s.data.length)
    (h : s.data.take n ≠ t.data.take n) : s ++ x ≠ t := by
  intro he
  apply h
  have hd : s.data ++ x.data = t.data := by
    have h2 : (s ++ x).data = t.data := congrArg String.data he
    rw [str_data_append] at h2
    exact h2
  rw [← hd, List.take_append_of_le_length hn]

/-- Two strings of different lengths differ. -/
theorem ne_of_length_ne (s t : String) (h : s.length ≠ t.length) : s ≠ t := by
  intro he
  exact h (congrArg String.length he)

/-- The -D__DATA_DIR define is longer than any fixed define of at most 17
characters, hence distinct from each of them. -/
theorem dataDir_ne (pre t : String) (ht : t.length ≤ 17) :
    "-D__DATA_DIR=" ++ jp pre "data" ≠ t := by
  apply ne_of_length_ne
  rw [String.length_append]
  unfold jp
  rw [String.length_append, String.length_append]
  have h1 : ("-D__DATA_DIR=" : String).length = 13 := by decide
  have h2 : ("/" : String).length = 1 := by decide
  have h3 : ("data" : String).length = 4 := by decide
  omega

/-- splitLines distributes over a newline terminated first line that
contains no newline itself. -/
theorem splitLines_append (a rest : List Char) (h : '\n' ∉ a) :
    splitLines (a ++ '\n' :: rest) = a :: splitLines rest := by
  induction a with
  | nil => simp [splitLines]
  | cons c a ih =>
    have hc : c ≠ '\n' := fun he => h (he ▸ List.mem_cons_self c a)
    have ha : '\n' ∉ a := fun hm => h (List.mem_cons_of_mem c hm)
    have h1 : splitLines ((c :: a) ++ '\n' :: rest) =
        (c :: (splitLines (a ++ '\n' :: rest)).headD []) ::
          (splitLines (a ++ '\n' :: rest)).tail := by
      simp [splitLines, if_neg hc]
    rw [h1, ih ha]
    simp

/-- splitLines starts a new line at a leading newline. -/
theorem splitLines_newline (rest : List Char) :
    splitLines ('\n' :: rest) = [] :: splitLines rest := by
  simp [splitLines]

/-- A line of KEY = value shape contains the separator. -/
theorem containsSep_of_shape (k v : List Char) :
    containsSep (k ++ ' ' :: '=' :: ' ' :: v) = true := by
  induction k with
  | nil => simp [containsSep, startsSep]
  | cons c k ih =>
    simp only [List.cons_append, containsSep]
    rw [show containsSep (List.append k (' ' :: '=' :: ' ' :: v)) = true from ih,
      Bool.or_true]

/-- A line without the separator is not a KEY = value line. -/
theorem not_isKV_of_not_containsSep (l : List Char) (h : containsSep l = false) :
    ¬ IsKVLine l := by
  rintro ⟨k, v, hkv, hk⟩
  rw [hkv, containsSep_of_shape] at h
  exact Bool.noConfusion h

/-- Any line of the KEY = value shape with a nonempty key is a KEY =
value line. -/
theorem isKV_of_shape (k v : List Char) (hk : k ≠ []) :
    IsKVLine (k ++ ' ' :: '=' :: ' ' :: v) := ⟨k, v, rfl, hk⟩

/-- Reading the key just set in an environment yields the set value. -/
theorem envLookup_envSet_self (env : List (String × String)) (k v : String) :
    envLookup (envSet env k v) k = Option.some v := by
  induction env with
  | nil => simp [envSet, envLookup]
  | cons kv rest ih =>
    obtain ⟨k1, v1⟩ := kv
    by_cases h : k1 = k
    · simp [envSet, envLookup, h]
    · simp [envSet, envLookup, h, ih]

/-- Reading a different key than the one just set is unchanged. -/
theorem envLookup_envSet_other (env : List (String × String)) (k v k2 : String)
    (h : k2 ≠ k) : envLookup (envSet env k v) k2 = envLookup env k2 := by
  have hk : k ≠ k2 := fun he => h he.symm
  induction env with
  | nil => simp [envSet, envLookup, hk]
  | cons kv rest ih =>
    obtain ⟨k1, v1⟩ := kv
    by_cases h1 : k1 = k
    · subst h1
      simp [envSet, envLookup, hk]
    · simp only [envSet, if_neg h1, envLookup]
      by_cases h2 : k1 = k2
      · simp [h2]
      · simp [h2, ih]

/-- Reduction of translate once the optflags lookup has succeeded. -/
theorem translate_eq_some (s : Cp2kSpec) (w : World) (pre : String) (opt : List String)
    (ho : optflagsFor s.compiler.name = Option.some opt) :
    translate s w pre =
      (if s.smm = Smm.libsmm then
        match envLookup w.env "LIBSMM_PATH" with
        | Option.none => Except.error (Err.keyErrorEnv libsmmKeyMsg)
        | Option.some path =>
          if w.files.contains path then
            Except.ok (mkCp2kResult s opt (Option.some path) pre)
          else Except.error (Err.ioError libsmmIoMsg)
      else Except.ok (mkCp2kResult s opt Option.none pre)) := by
  unfold translate
  rw [ho]

/-- Reduction of translate when the optflags lookup fails. -/
theorem translate_eq_none (s : Cp2kSpec) (w : World) (pre : String)
    (ho : optflagsFor s.compiler.name = Option.none) :
    translate s w pre = Except.error (Err.keyErrorOptflags s.compiler.name) := by
  unfold translate
  rw [ho]

/-- Reduction of translate for smm=libsmm with LIBSMM_PATH unset. -/
theorem translate_libsmm_none (s : Cp2kSpec) (w : World) (pre : String) (opt : List String)
    (ho : optflagsFor s.compiler.name = Option.some opt) (hs : s.smm = Smm.libsmm)
    (hl : envLookup w.env "LIBSMM_PATH" = Option.none) :
    translate s w pre = Except.error (Err.keyErrorEnv libsmmKeyMsg) := by
  rw [translate_eq_some s w pre opt ho, if_pos hs, hl]

/-- Reduction of translate for smm=libsmm with LIBSMM_PATH set. -/
theorem translate_libsmm_some (s : Cp2kSpec) (w : World) (pre : String) (opt : List String)
    (path : String) (ho : optflagsFor s.compiler.name = Option.some opt)
    (hs : s.smm = Smm.libsmm)
    (hl : envLookup w.env "LIBSMM_PATH" = Option.some path) :
    translate s w pre =
      (if w.files.contains path then
        Except.ok (mkCp2kResult s opt (Option.some path) pre)
      else Except.error (Err.ioError libsmmIoMsg)) := by
  rw [translate_eq_some s w pre opt ho, if_pos hs, hl]

/-- Reduction of translate away from smm=libsmm. -/
theorem translate_not_libsmm (s : Cp2kSpec) (w : World) (pre : String) (opt : List String)
    (ho : optflagsFor s.compiler.name = Option.some opt) (hs : ¬s.smm = Smm.libsmm) :
    translate s w pre = Except.ok (mkCp2kResult s opt Option.none pre) := by
  rw [translate_eq_some s w pre opt ho, if_neg hs]

/-! ## Concrete fixtures -/

/-- A generic concrete dependency record for concrete Specs. -/
def depA : DepInfo := ⟨"-I/a/include", ⟨["/a/libdep.a"]⟩, "/a", [1, 0], "mpif90"⟩

/-- A concrete gcc compiler record. -/
def gccC : Compiler := ⟨"gcc", "gcc", "gfortran", ["-lstdc++"]⟩

/-- A concrete clang compiler record, a family outside the optflags map. -/
def clangC : Compiler := ⟨"clang", "clang", "flang", []⟩

/-- A concrete sequential cp2k Spec with gcc and smm=none. -/
def baseSpec : Cp2kSpec :=
  ⟨[5, 1], "linux-x86_64", true, false, false, Smm.none, gccC, false, false, fun _ => depA⟩

/-- A concrete cp2k Spec with smm=libsmm and gcc. -/
def libsmmSpec : Cp2kSpec :=
  ⟨[5, 1], "linux-x86_64", true, false, false, Smm.libsmm, gccC, false, false, fun _ => depA⟩

/-- A concrete cp2k Spec with smm=libsmm and clang. -/
def clangLibsmmSpec : Cp2kSpec :=
  ⟨[5, 1], "linux-x86_64", true, false, false, Smm.libsmm, clangC, false, false, fun _ => depA⟩

/-- A world with no LIBSMM_PATH binding. -/
def wNo : World := ⟨[("PWD", "/root")], []⟩

/-- A world where LIBSMM_PATH points at a missing file. -/
def wBad : World := ⟨[("LIBSMM_PATH", "/missing/libsmm.a")], []⟩

/-- A world where LIBSMM_PATH points at an existing file. -/
def wGood : World := ⟨[("LIBSMM_PATH", "/opt/smm/libsmm.a")], ["/opt/smm/libsmm.a"]⟩

/-! ## C10 -/

/-- C10: Cp2k.with_static returns the query unchanged when the static
variant is disabled, and otherwise appends ,static when the query already
contains a colon and :static when it does not; Fftw.libs selects static
libfftw3 libraries exactly when the string static occurs in the extra
parameters of the last query, and shared libraries otherwise. -/
theorem static_roundtrip (q : String) (ep : List String) (p : String) :
    with_static false q = q ∧
    (q.data.contains ':' = true → with_static true q = q ++ ",static") ∧
    (q.data.contains ':' = false → with_static true q = q ++ ":static") ∧
    ((fftwLibsCall ep p).2.2.1 = false ↔ "static" ∈ ep) ∧
    (fftwLibsCall ep p).1 = ["libfftw3"] := by
  have h1 : with_static true q =
      (if q.data.contains ':' = true then q ++ ",static" else q ++ ":static") := by
    unfold with_static
    rw [if_neg (by decide : ¬(true = false))]
  refine ⟨rfl, ?_, ?_, ?_, rfl⟩
  · intro hq
    rw [h1, if_pos hq]
  · intro hq
    rw [h1, if_neg (fun h => Bool.noConfusion (hq ▸ h))]
  · have hred : (fftwLibsCall ep p).2.2.1 =
        (if ep.contains "static" = true then false else true) := rfl
    rw [hred]
    by_cases hc : ep.contains "static" = true
    · have hm : "static" ∈ ep := List.elem_iff.mp hc
      simp [hc, hm]
    · have hm : "static" ∉ ep := fun hmem => hc (List.elem_iff.mpr hmem)
      simp [hc, hm]

/-- Witness for C10 at concrete queries and extra parameters. -/
theorem static_roundtrip_witness :
    with_static true "fftw" = "fftw:static" ∧
    with_static true "mpi:cxx" = "mpi:cxx,static" ∧
    with_static false "fftw" = "fftw" ∧
    ((fftwLibsCall ["static"] "/opt/fftw").2.2.1 = false ↔ "static" ∈ ["static"]) := by
  refine ⟨?_, ?_, ?_, ?_⟩
  · exact (static_roundtrip "fftw" [] "/").2.2.1 (by decide)
  · exact (static_roundtrip "mpi:cxx" [] "/").2.1 (by decide)
  · exact (static_roundtrip "fftw" [] "/").1
  · exact (static_roundtrip "fftw" ["static"] "/opt/fftw").2.2.2.1

/-! ## C9 -/

/-- C9: whenever the makefiles stage of Cp2k.install completes, the PWD
environment entry afterwards equals the entry before the stage, even
though during the stage it is set to the current working directory. -/
theorem pwd_restored (env : List (String × String)) (cwd : String) (makeOk : Bool)
    (out : List (String × String)) (h : pwdStage env cwd makeOk = Option.some out) :
    envLookup out "PWD" = envLookup env "PWD" ∧
    envLookup (envSet env "PWD" cwd) "PWD" = Option.some cwd := by
  refine ⟨?_, envLookup_envSet_self env "PWD" cwd⟩
  unfold pwdStage at h
  cases hb : envLookup env "PWD" with
  | none =>
    rw [hb] at h
    exact Option.noConfusion h
  | some b =>
    rw [hb] at h
    cases makeOk with
    | false => simp at h
    | true =>
      have h3 : Option.some (envSet (envSet env "PWD" cwd) "PWD" b) = Option.some out := h
      injection h3 with h2
      rw [← h2, envLookup_envSet_self]

/-- Witness for C9 at a concrete environment and working directory. -/
theorem pwd_restored_witness :
    envLookup (envSet (envSet [("PWD", "/root")] "PWD" "/stage/makefiles") "PWD" "/root")
      "PWD" = envLookup [("PWD", "/root")] "PWD" ∧
    envLookup (envSet [("PWD", "/root")] "PWD" "/stage/makefiles") "PWD" =
      Option.some "/stage/makefiles" :=
  pwd_restored [("PWD", "/root")] "/stage/makefiles" true _ rfl

/-! ## C8 -/

/-- C8: vasp emits through the environment variable channel:
setup_environment sets exactly CRAYPE_LINK_TYPE to static and INSTALL_DIR
to the installation prefix, leaving every other variable unchanged, and
install is the single external invocation make all, with no configure
invocation and no generated configuration file. -/
theorem vasp_env_channel (env : List (String × String)) (pre : String) (k : String) :
    envLookup (applySets env (vaspSetupEnvironment pre)) "CRAYPE_LINK_TYPE" =
      Option.some "static" ∧
    envLookup (applySets env (vaspSetupEnvironment pre)) "INSTALL_DIR" = Option.some pre ∧
    (k ≠ "CRAYPE_LINK_TYPE" → k ≠ "INSTALL_DIR" →
      envLookup (applySets env (vaspSetupEnvironment pre)) k = envLookup env k) ∧
    vaspInstall = [⟨".", "make", ["all"]⟩] ∧
    (∀ i ∈ vaspInstall, i.cmd = "make" ∧ i.args = ["all"] ∧ i.cmd ≠ "configure") := by
  have h1 : applySets env (vaspSetupEnvironment pre) =
      envSet (envSet env "CRAYPE_LINK_TYPE" "static") "INSTALL_DIR" pre := rfl
  refine ⟨?_, ?_, ?_, rfl, ?_⟩
  · rw [h1, envLookup_envSet_other _ _ _ _ (by decide), envLookup_envSet_self]
  · rw [h1, envLookup_envSet_self]
  · intro hk1 hk2
    rw [h1, envLookup_envSet_other _ _ _ _ hk2, envLookup_envSet_other _ _ _ _ hk1]
  · intro i hi
    simp only [vaspInstall, List.mem_singleton] at hi
    subst hi
    exact ⟨rfl, rfl, by decide⟩

/-- Witness for C8 at a concrete environment, prefix and other key. -/
theorem vasp_env_channel_witness :
    envLookup (applySets [("PATH", "/bin")] (vaspSetupEnvironment "/opt/vasp"))
      "CRAYPE_LINK_TYPE" = Option.some "static" ∧
    envLookup (applySets [("PATH", "/bin")] (vaspSetupEnvironment "/opt/vasp"))
      "INSTALL_DIR" = Option.some "/opt/vasp" ∧
    envLookup (applySets [("PATH", "/bin")] (vaspSetupEnvironment "/opt/vasp")) "PATH" =
      envLookup [("PATH", "/bin")] "PATH" := by
  refine ⟨(vasp_env_channel [("PATH", "/bin")] "/opt/vasp" "PATH").1,
    (vasp_env_channel [("PATH", "/bin")] "/opt/vasp" "PATH").2.1, ?_⟩
  exact (vasp_env_channel [("PATH", "/bin")] "/opt/vasp" "PATH").2.2.1 (by decide) (by decide)

/-! ## C2 -/

/-- C2: the optimization flag mapping lists exactly gcc and intel; for a
Spec with any other compiler family the translation fails with the
UnsupportedConfiguration failure (the optflags KeyError) rather than a
silent default, and for gcc and intel no UnsupportedConfiguration failure
is ever raised, for every variant combination. -/
theorem compiler_family_mapping (s : Cp2kSpec) (w : World) (pre : String) :
    (¬(s.compiler.name = "gcc" ∨ s.compiler.name = "intel") →
      translate s w pre = Except.error (Err.keyErrorOptflags s.compiler.name) ∧
      isUnsupportedConfiguration (Err.keyErrorOptflags s.compiler.name) = true) ∧
    ((s.compiler.name = "gcc" ∨ s.compiler.name = "intel") →
      ∀ e, translate s w pre = Except.error e → isUnsupportedConfiguration e = false) := by
  constructor
  · intro hn
    push_neg at hn
    have ho : optflagsFor s.compiler.name = Option.none := by
      unfold optflagsFor
      rw [if_neg hn.1, if_neg hn.2]
    unfold translate
    rw [ho]
    exact ⟨rfl, rfl⟩
  · intro hy e he
    obtain ⟨opt, ho⟩ : ∃ opt, optflagsFor s.compiler.name = Option.some opt := by
      rcases hy with h | h <;> rw [h] <;> exact ⟨_, rfl⟩
    by_cases hs : s.smm = Smm.libsmm
    · cases hl : envLookup w.env "LIBSMM_PATH" with
      | none =>
        rw [translate_libsmm_none s w pre opt ho hs hl] at he
        injection he with he2
        rw [← he2]
        rfl
      | some p =>
        rw [translate_libsmm_some s w pre opt p ho hs hl] at he
        by_cases hf : w.files.contains p = true
        · rw [if_pos hf] at he
          exact Except.noConfusion he
        · rw [if_neg hf] at he
          injection he with he2
          rw [← he2]
          rfl
    · rw [translate_not_libsmm s w pre opt ho hs] at he
      exact Except.noConfusion he

/-- Witness for C2: clang fails with the UnsupportedConfiguration
failure; a gcc Spec that does fail (smm=libsmm, LIBSMM_PATH unset) does
not fail with that class. -/
theorem compiler_family_mapping_witness :
    (translate clangLibsmmSpec wNo "/p" = Except.error (Err.keyErrorOptflags "clang") ∧
      isUnsupportedConfiguration (Err.keyErrorOptflags "clang") = true) ∧
    isUnsupportedConfiguration (Err.keyErrorEnv libsmmKeyMsg) = false := by
  constructor
  · exact (compiler_family_mapping clangLibsmmSpec wNo "/p").1 (by decide)
  · exact (compiler_family_mapping libsmmSpec wNo "/p").2 (Or.inl rfl)
      (Err.keyErrorEnv libsmmKeyMsg) rfl

/-! ## C1 -/

/-- C1 (amended to Specs whose compiler family is in the optflags
mapping): for a cp2k Spec with smm=libsmm and a gcc or intel compiler,
the makefile generation fails with a MissingExternalResource failure when
LIBSMM_PATH is unset, and when it is set but does not reference an
existing file; when it references an existing file no error is raised,
the defines -D__HAS_smm_dnn and -D__HAS_smm_vec are emitted, and the file
is appended to the link library list. -/
theorem libsmm_external_resource (s : Cp2kSpec) (w : World) (pre : String)
    (hs : s.smm = Smm.libsmm)
    (hc : s.compiler.name = "gcc" ∨ s.compiler.name = "intel") :
    (envLookup w.env "LIBSMM_PATH" = Option.none →
      ∃ e, translate s w pre = Except.error e ∧ isMissingExternalResource e = true) ∧
    (∀ p, envLookup w.env "LIBSMM_PATH" = Option.some p → w.files.contains p = false →
      ∃ e, translate s w pre = Except.error e ∧ isMissingExternalResource e = true) ∧
    (∀ p, envLookup w.env "LIBSMM_PATH" = Option.some p → w.files.contains p = true →
      ∃ res, translate s w pre = Except.ok res ∧
        "-D__HAS_smm_dnn" ∈ res.dflags ∧ "-D__HAS_smm_vec" ∈ res.dflags ∧
        p ∈ res.libs) := by
  obtain ⟨opt, ho⟩ : ∃ opt, optflagsFor s.compiler.name = Option.some opt := by
    rcases hc with h | h <;> rw [h] <;> exact ⟨_, rfl⟩
  refine ⟨?_, ?_, ?_⟩
  · intro hl
    exact ⟨Err.keyErrorEnv libsmmKeyMsg, translate_libsmm_none s w pre opt ho hs hl, rfl⟩
  · intro p hl hf
    refine ⟨Err.ioError libsmmIoMsg, ?_, rfl⟩
    rw [translate_libsmm_some s w pre opt p ho hs hl,
      if_neg (fun h => Bool.noConfusion (hf ▸ h))]
  · intro p hl hf
    refine ⟨mkCp2kResult s opt (Option.some p) pre, ?_, ?_, ?_, ?_⟩
    · rw [translate_libsmm_some s w pre opt p ho hs hl, if_pos hf]
    · show "-D__HAS_smm_dnn" ∈ dflagsOf s (Option.some p) pre
      simp [dflagsOf, hs]
    · show "-D__HAS_smm_vec" ∈ dflagsOf s (Option.some p) pre
      simp [dflagsOf, hs]
    · show p ∈ libsOf s (Option.some p)
      simp [libsOf, hs]

/-- Witness for C1 at a concrete libsmm gcc Spec and the three worlds. -/
theorem libsmm_external_resource_witness :
    (∃ e, translate libsmmSpec wNo "/p" = Except.error e ∧
      isMissingExternalResource e = true) ∧
    (∃ e, translate libsmmSpec wBad "/p" = Except.error e ∧
      isMissingExternalResource e = true) ∧
    (∃ r, translate libsmmSpec wGood "/p" = Except.ok r ∧
      "-D__HAS_smm_dnn" ∈ r.dflags ∧ "-D__HAS_smm_vec" ∈ r.dflags ∧
      "/opt/smm/libsmm.a" ∈ r.libs) := by
  refine ⟨?_, ?_, ?_⟩
  · exact (libsmm_external_resource libsmmSpec wNo "/p" rfl (Or.inl rfl)).1 rfl
  · exact (libsmm_external_resource libsmmSpec wBad "/p" rfl (Or.inl rfl)).2.1
      "/missing/libsmm.a" rfl rfl
  · exact (libsmm_external_resource libsmmSpec wGood "/p" rfl (Or.inl rfl)).2.2
      "/opt/smm/libsmm.a" rfl rfl

/-- C1 counterexample: as stated (quantified over every cp2k Spec with
smm=libsmm) the claim is false: with a compiler family outside the
optflags mapping and LIBSMM_PATH unset the step fails with the
UnsupportedConfiguration KeyError of the optflags lookup, not with a
MissingExternalResource failure. -/
theorem libsmm_unsupported_first_cex :
    clangLibsmmSpec.smm = Smm.libsmm ∧
    envLookup wNo.env "LIBSMM_PATH" = Option.none ∧
    translate clangLibsmmSpec wNo "/p" = Except.error (Err.keyErrorOptflags "clang") ∧
    isMissingExternalResource (Err.keyErrorOptflags "clang") = false :=
  ⟨rfl, rfl, rfl, rfl⟩

/-! ## C4 -/

/-- The fftw 2.1.5 Spec with default variants: double, float, long_double
and mpi enabled, quad, openmp and pfft_patches disabled. -/
def fftw215 : FftwSpec :=
  ⟨[2, 1, 5], "linux-x86_64", true, true, true, false, false, true, false,
   "gcc", "7.2.0", Option.some "gfortran", Option.some "gfortran", "-fopenmp"⟩

/-- C4: evidence of the divergence between Fftw.configure and Fftw.build:
at fftw 2.1.5 with default variants, configure runs only in the double
and float directories (the long-double configure is guarded by the
version range @3:), while build runs make also in the long-double
directory, which was never created or configured. -/
theorem fftw_build_configure_mismatch :
    Except.map (fun l => l.map Invocation.dir) (fftwConfigure fftw215 "/opt/fftw") =
      Except.ok ["double", "float"] ∧
    (fftwBuild fftw215).map Invocation.dir = ["double", "float", "long-double"] ∧
    (["double", "float"] : List String) ≠ ["double", "float", "long-double"] :=
  ⟨rfl, rfl, by decide⟩

/-! ## C5 -/

/-- The libsmm path actually used by a successful translation: the
LIBSMM_PATH value for smm=libsmm, nothing otherwise. -/
def lpOf (s : Cp2kSpec) (w : World) : Option String :=
  if s.smm = Smm.libsmm then envLookup w.env "LIBSMM_PATH" else Option.none

/-- Inversion: a successful translation is exactly the assembled result
for the optflags entry of the compiler and the libsmm path of the world. -/
theorem translate_ok_inv (s : Cp2kSpec) (w : World) (pre : String) (res : Cp2kResult)
    (hE : translate s w pre = Except.ok res) :
    ∃ opt, optflagsFor s.compiler.name = Option.some opt ∧
      res = mkCp2kResult s opt (lpOf s w) pre := by
  cases ho : optflagsFor s.compiler.name with
  | none =>
    rw [translate_eq_none s w pre ho] at hE
    exact Except.noConfusion hE
  | some opt =>
    refine ⟨opt, rfl, ?_⟩
    by_cases hs : s.smm = Smm.libsmm
    · cases hl : envLookup w.env "LIBSMM_PATH" with
      | none =>
        rw [translate_libsmm_none s w pre opt ho hs hl] at hE
        exact Except.noConfusion hE
      | some p =>
        rw [translate_libsmm_some s w pre opt p ho hs hl] at hE
        by_cases hf : w.files.contains p = true
        · rw [if_pos hf] at hE
          injection hE with h2
          rw [← h2]
          simp [lpOf, hs, hl]
        · rw [if_neg hf] at hE
          exact Except.noConfusion hE
    · rw [translate_not_libsmm s w pre opt ho hs] at hE
      injection hE with h2
      rw [← h2]
      simp [lpOf, hs]

/-- C5 (amended: when mpi is enabled and superlu-dist@4.3 is among the
dependencies, the workaround flag -Wl,--allow-multiple-definition is
prepended in front of everything): the emitted LDFLAGS list is the
combined fftw/lapack/blas/libxc search flags, then the scalapack search
flags when mpi is enabled, then the libxsmm search flags when
smm=libxsmm, in exactly this append order. -/
theorem ldflags_order (s : Cp2kSpec) (w : World) (pre : String) (res : Cp2kResult)
    (hE : translate s w pre = Except.ok res) :
    res.ldflags =
      (if s.mpi && vAt (s.query "superlu-dist").version [4, 3] then
        ["-Wl,--allow-multiple-definition"]
      else [])
      ++ [LibraryList.searchFlags
            ((((s.query (with_static s.static "fftw")).libs.add
                (s.query (with_static s.static "lapack")).libs).add
                (s.query (with_static s.static "blas")).libs).add
                (s.query (with_static s.static "libxc:fortran")).libs)]
      ++ (if s.mpi then [(s.query (with_static s.static "scalapack")).libs.searchFlags]
          else [])
      ++ (if s.smm = Smm.libxsmm then [(s.query "libxsmm").libs.searchFlags] else []) := by
  obtain ⟨opt, ho, hres⟩ := translate_ok_inv s w pre res hE
  rw [hres]
  show ldflagsOf s = _
  unfold ldflagsOf
  cases hmpi : s.mpi with
  | false => simp
  | true =>
    by_cases hslu : vAt (s.query "superlu-dist").version [4, 3] = true
    · simp [hslu]
    · simp [hslu]

/-- Witness for C5 at a concrete sequential gcc Spec. -/
theorem ldflags_order_witness :
    (mkCp2kResult baseSpec optflagsGcc (lpOf baseSpec wNo) "/p").ldflags =
      (if baseSpec.mpi && vAt (baseSpec.query "superlu-dist").version [4, 3] then
        ["-Wl,--allow-multiple-definition"]
      else [])
      ++ [LibraryList.searchFlags
            ((((baseSpec.query (with_static baseSpec.static "fftw")).libs.add
                (baseSpec.query (with_static baseSpec.static "lapack")).libs).add
                (baseSpec.query (with_static baseSpec.static "blas")).libs).add
                (baseSpec.query (with_static baseSpec.static "libxc:fortran")).libs)]
      ++ (if baseSpec.mpi then
            [(baseSpec.query (with_static baseSpec.static "scalapack")).libs.searchFlags]
          else [])
      ++ (if baseSpec.smm = Smm.libxsmm then
            [(baseSpec.query "libxsmm").libs.searchFlags]
          else []) :=
  ldflags_order baseSpec wNo "/p"
    (mkCp2kResult baseSpec optflagsGcc (lpOf baseSpec wNo) "/p") rfl

/-- The ldflags of a translation result, empty on failure. -/
def ldflagsOfResult : Except Err Cp2kResult → List String
  | Except.ok r => r.ldflags
  | Except.error _ => []

/-- A dependency record with superlu-dist at version 4.3. -/
def depSuperlu43 : DepInfo := ⟨"-I/slu", ⟨["/slu/libsuperlu_dist.a"]⟩, "/slu", [4, 3], ""⟩

/-- A concrete mpi gcc Spec whose superlu-dist dependency is at 4.3. -/
def c5spec : Cp2kSpec :=
  ⟨[5, 1], "linux-x86_64", true, true, false, Smm.none, gccC, false, false,
   fun q => if q = "superlu-dist" then depSuperlu43 else depA⟩

/-- C5 counterexample: with mpi enabled and superlu-dist at 4.3 the first
emitted LDFLAGS entry is the prepended workaround flag, not the combined
fftw/lapack/blas/libxc search flags, refuting the claimed order as
stated. -/
theorem ldflags_order_cex :
    ldflagsOfResult (translate c5spec wNo "/p") =
      ["-Wl,--allow-multiple-definition", "-L/a", "-L/a"] ∧
    (ldflagsOfResult (translate c5spec wNo "/p")).head? =
      Option.some "-Wl,--allow-multiple-definition" ∧
    "-Wl,--allow-multiple-definition" ≠
      LibraryList.searchFlags
        ((((c5spec.query (with_static c5spec.static "fftw")).libs.add
            (c5spec.query (with_static c5spec.static "lapack")).libs).add
            (c5spec.query (with_static c5spec.static "blas")).libs).add
            (c5spec.query (with_static c5spec.static "libxc:fortran")).libs) :=
  ⟨rfl, rfl, by decide⟩

/-! ## C3 -/

/-- Membership in a conditional segment resolves to a side together with
the condition. -/
theorem mem_ite_prop {x : String} {c : Prop} [Decidable c] {L M : List String}
    (h : x ∈ (if c then L else M)) : (c ∧ x ∈ L) ∨ (¬c ∧ x ∈ M) := by
  by_cases hc : c
  · rw [if_pos hc] at h
    exact Or.inl ⟨hc, h⟩
  · rw [if_neg hc] at h
    exact Or.inr ⟨hc, h⟩

/-- Characterization of the possible members of the dflags channel: the
data dir define, an elpa version define, one of the fixed defines, or a
variant guarded define together with its guard. -/
theorem mem_dflagsOf (x : String) (s : Cp2kSpec) (lp : Option String) (pre : String)
    (hx : x ∈ dflagsOf s lp pre) :
    x = "-D__DATA_DIR=" ++ jp pre "data" ∨ (∃ t, x = "-D__ELPA=" ++ t) ∨
    x ∈ ["-DNDEBUG", "-D__FFTW3", "-D__LIBINT", "-D__LIBINT_MAX_AM=6",
      "-D__LIBDERIV_MAX_AM1=5", "-D__LIBXC", "-D__FFTSG"] ∨
    (s.compiler.name = "intel" ∧
      x ∈ ["-D__INTEL", "-D__HAS_ISO_C_BINDING", "-D__USE_CP2K_TRACE", "-D__MKL"]) ∨
    (s.mpi = true ∧
      x ∈ ["-D__MPI_VERSION=3", "-D__MPI_VERSION=2", "-D__parallel", "-D__LIBPEXSI",
        "-D__SCALAPACK", "-D__ELPA", "-D__ELPA2", "-D__ELPA3", "-D__WANNIER90"]) ∨
    (s.smm = Smm.libsmm ∧ x ∈ ["-D__HAS_smm_dnn", "-D__HAS_smm_vec"]) ∨
    (s.smm = Smm.libxsmm ∧ x = "-D__LIBXSMM") ∨
    (s.plumed = true ∧ x = "-D__PLUMED2") := by
  unfold dflagsOf at hx
  rcases List.mem_append.mp hx with hx | h6
  rotate_left
  · rcases mem_ite_prop h6 with ⟨hc, h⟩ | ⟨_, h⟩
    · rcases List.mem_cons.mp h with he | he
      · exact Or.inr (Or.inr (Or.inr (Or.inr (Or.inr (Or.inr (Or.inr ⟨hc, he⟩))))))
      · exact absurd he (List.not_mem_nil x)
    · exact absurd h (List.not_mem_nil x)
  rcases List.mem_append.mp hx with hx | h5
  rotate_left
  · revert h5
    cases hsmm : s.smm with
    | libxsmm =>
      intro h5
      rcases List.mem_cons.mp h5 with he | he
      · exact Or.inr (Or.inr (Or.inr (Or.inr (Or.inr (Or.inr (Or.inl ⟨rfl, he⟩))))))
      · exact absurd he (List.not_mem_nil x)
    | libsmm =>
      intro h5
      exact Or.inr (Or.inr (Or.inr (Or.inr (Or.inr (Or.inl ⟨rfl, h5⟩)))))
    | none =>
      intro h5
      exact absurd h5 (List.not_mem_nil x)
  rcases List.mem_append.mp hx with hx | h4
  rotate_left
  · rcases mem_ite_prop h4 with ⟨hc, h⟩ | ⟨_, h⟩
    · rcases List.mem_append.mp h with h' | hW
      rotate_left
      · rcases mem_ite_prop hW with ⟨_, hw⟩ | ⟨_, hw⟩
        · refine Or.inr (Or.inr (Or.inr (Or.inr (Or.inl ⟨hc, ?_⟩))))
          simp only [List.mem_cons, List.not_mem_nil, or_false] at hw ⊢
          tauto
        · exact absurd hw (List.not_mem_nil x)
      rcases List.mem_append.mp h' with h'' | hEl
      rotate_left
      · rcases mem_ite_prop hEl with ⟨_, he⟩ | ⟨_, he⟩
        · rcases mem_ite_prop he with ⟨_, he2⟩ | ⟨_, he2⟩
          · refine Or.inr (Or.inr (Or.inr (Or.inr (Or.inl ⟨hc, ?_⟩))))
            simp only [List.mem_cons, List.not_mem_nil, or_false] at he2 ⊢
            tauto
          · rcases mem_ite_prop he2 with ⟨_, he3⟩ | ⟨_, he3⟩
            · refine Or.inr (Or.inr (Or.inr (Or.inr (Or.inl ⟨hc, ?_⟩))))
              simp only [List.mem_cons, List.not_mem_nil, or_false] at he3 ⊢
              tauto
            · refine Or.inr (Or.inr (Or.inr (Or.inr (Or.inl ⟨hc, ?_⟩))))
              simp only [List.mem_cons, List.not_mem_nil, or_false] at he3 ⊢
              tauto
        · rcases List.mem_cons.mp he with he2 | he2
          · exact Or.inr (Or.inl ⟨_, he2⟩)
          · exact absurd he2 (List.not_mem_nil x)
      rcases List.mem_append.mp h'' with hV | hT
      rotate_left
      · refine Or.inr (Or.inr (Or.inr (Or.inr (Or.inl ⟨hc, ?_⟩))))
        simp only [List.mem_cons, List.not_mem_nil, or_false] at hT ⊢
        tauto
      · rcases mem_ite_prop hV with ⟨_, hv⟩ | ⟨_, hv⟩
        · refine Or.inr (Or.inr (Or.inr (Or.inr (Or.inl ⟨hc, ?_⟩))))
          simp only [List.mem_cons, List.not_mem_nil, or_false] at hv ⊢
          tauto
        · rcases mem_ite_prop hv with ⟨_, hv2⟩ | ⟨_, hv2⟩
          · refine Or.inr (Or.inr (Or.inr (Or.inr (Or.inl ⟨hc, ?_⟩))))
            simp only [List.mem_cons, List.not_mem_nil, or_false] at hv2 ⊢
            tauto
          · exact absurd hv2 (List.not_mem_nil x)
    · exact absurd h (List.not_mem_nil x)
  rcases List.mem_append.mp hx with hx | h3
  rotate_left
  · rcases mem_ite_prop h3 with ⟨hc, h⟩ | ⟨_, h⟩
    · exact Or.inr (Or.inr (Or.inr (Or.inl ⟨hc, h⟩)))
    · exact absurd h (List.not_mem_nil x)
  rcases List.mem_append.mp hx with h1 | h2
  rotate_left
  · rcases mem_ite_prop h2 with ⟨_, h⟩ | ⟨_, h⟩
    · refine Or.inr (Or.inr (Or.inl ?_))
      simp only [List.mem_cons, List.not_mem_nil, or_false] at h ⊢
      tauto
    · exact absurd h (List.not_mem_nil x)
  · rcases List.mem_cons.mp h1 with hd | h1
    · exact Or.inl hd
    · refine Or.inr (Or.inr (Or.inl ?_))
      simp only [List.mem_cons, List.not_mem_nil, or_false] at h1 ⊢
      tauto

/-- With mpi disabled, -D__parallel is not among the dflags. -/
theorem parallel_not_mem_dflags (s : Cp2kSpec) (lp : Option String) (pre : String)
    (hm : s.mpi = false) : "-D__parallel" ∉ dflagsOf s lp pre := by
  intro hx
  rcases mem_dflagsOf _ s lp pre hx with h | h | h | h | h | h | h | h
  · exact dataDir_ne pre "-D__parallel" (by decide) h.symm
  · obtain ⟨t, ht⟩ := h
    exact append_ne_of_take_ne "-D__ELPA=" t "-D__parallel" 5 (by decide) (by decide) ht.symm
  · revert h
    decide
  · exact absurd h.2 (by decide)
  · exact Bool.noConfusion (hm ▸ h.1)
  · exact absurd h.2 (by decide)
  · exact absurd h.2 (by decide)
  · exact absurd h.2 (by decide)

/-- With plumed disabled, -D__PLUMED2 is not among the dflags. -/
theorem plumed2_not_mem_dflags (s : Cp2kSpec) (lp : Option String) (pre : String)
    (hp : s.plumed = false) : "-D__PLUMED2" ∉ dflagsOf s lp pre := by
  intro hx
  rcases mem_dflagsOf _ s lp pre hx with h | h | h | h | h | h | h | h
  · exact dataDir_ne pre "-D__PLUMED2" (by decide) h.symm
  · obtain ⟨t, ht⟩ := h
    exact append_ne_of_take_ne "-D__ELPA=" t "-D__PLUMED2" 5 (by decide) (by decide) ht.symm
  · revert h
    decide
  · exact absurd h.2 (by decide)
  · exact absurd h.2 (by decide)
  · exact absurd h.2 (by decide)
  · exact absurd h.2 (by decide)
  · exact Bool.noConfusion (hp ▸ h.1)

/-- Away from smm=libxsmm, -D__LIBXSMM is not among the dflags. -/
theorem libxsmm_not_mem_dflags (s : Cp2kSpec) (lp : Option String) (pre : String)
    (hs : ¬s.smm = Smm.libxsmm) : "-D__LIBXSMM" ∉ dflagsOf s lp pre := by
  intro hx
  rcases mem_dflagsOf _ s lp pre hx with h | h | h | h | h | h | h | h
  · exact dataDir_ne pre "-D__LIBXSMM" (by decide) h.symm
  · obtain ⟨t, ht⟩ := h
    exact append_ne_of_take_ne "-D__ELPA=" t "-D__LIBXSMM" 5 (by decide) (by decide) ht.symm
  · revert h
    decide
  · exact absurd h.2 (by decide)
  · exact absurd h.2 (by decide)
  · exact absurd h.2 (by decide)
  · exact hs h.1
  · exact absurd h.2 (by decide)

/-- Away from smm=libsmm, the -D__HAS_smm defines are not among the
dflags. -/
theorem hasSmm_not_mem_dflags (s : Cp2kSpec) (lp : Option String) (pre : String)
    (hs : ¬s.smm = Smm.libsmm) :
    "-D__HAS_smm_dnn" ∉ dflagsOf s lp pre ∧ "-D__HAS_smm_vec" ∉ dflagsOf s lp pre := by
  constructor
  · intro hx
    rcases mem_dflagsOf _ s lp pre hx with h | h | h | h | h | h | h | h
    · exact dataDir_ne pre "-D__HAS_smm_dnn" (by decide) h.symm
    · obtain ⟨t, ht⟩ := h
      exact append_ne_of_take_ne "-D__ELPA=" t "-D__HAS_smm_dnn" 5 (by decide) (by decide)
        ht.symm
    · revert h
      decide
    · exact absurd h.2 (by decide)
    · exact absurd h.2 (by decide)
    · exact hs h.1
    · exact absurd h.2 (by decide)
    · exact absurd h.2 (by decide)
  · intro hx
    rcases mem_dflagsOf _ s lp pre hx with h | h | h | h | h | h | h | h
    · exact dataDir_ne pre "-D__HAS_smm_vec" (by decide) h.symm
    · obtain ⟨t, ht⟩ := h
      exact append_ne_of_take_ne "-D__ELPA=" t "-D__HAS_smm_vec" 5 (by decide) (by decide)
        ht.symm
    · revert h
      decide
    · exact absurd h.2 (by decide)
    · exact absurd h.2 (by decide)
    · exact hs h.1
    · exact absurd h.2 (by decide)
    · exact absurd h.2 (by decide)

/-- With mpi disabled the link library list queries only the non mpi
dependencies. -/
theorem libsOf_no_mpi (s : Cp2kSpec) (lp : Option String) (hm : s.mpi = false) :
    libsOf s lp =
      (s.query (with_static s.static "libint")).libs.files
      ++ (match s.smm with
          | Smm.libsmm => [lp.getD ""]
          | Smm.libxsmm => (s.query "libxsmm").libs.files
          | Smm.none => [])
      ++ (if s.plumed then (s.query "plumed").libs.files else [])
      ++ (s.query (with_static s.static "libxc:fortran")).libs.files
      ++ (s.query (with_static s.static "fftw")).libs.files
      ++ (s.query (with_static s.static "lapack")).libs.files
      ++ (s.query (with_static s.static "blas")).libs.files := by
  unfold libsOf
  rw [hm]
  simp

/-- C3: a disabled variant never emits its defines: with mpi disabled no
-D__parallel appears in the dflags, cppflags, cflags or cxxflags channels
and the link library list is drawn only from the non mpi dependency
queries (so scalapack, elpa, pexsi, superlu-dist, parmetis, metis,
mpi and wannier90 libraries are never added); with plumed disabled no
-D__PLUMED2; away from smm=libxsmm no -D__LIBXSMM; away from smm=libsmm
no -D__HAS_smm defines. -/
theorem disabled_variant_defines (s : Cp2kSpec) (w : World) (pre : String)
    (res : Cp2kResult) (hE : translate s w pre = Except.ok res) :
    (s.mpi = false →
      "-D__parallel" ∉ res.dflags ∧ "-D__parallel" ∉ res.cppflags ∧
      "-D__parallel" ∉ res.cflags ∧ "-D__parallel" ∉ res.cxxflags ∧
      res.libs =
        (s.query (with_static s.static "libint")).libs.files
        ++ (match s.smm with
            | Smm.libsmm => [(lpOf s w).getD ""]
            | Smm.libxsmm => (s.query "libxsmm").libs.files
            | Smm.none => [])
        ++ (if s.plumed then (s.query "plumed").libs.files else [])
        ++ (s.query (with_static s.static "libxc:fortran")).libs.files
        ++ (s.query (with_static s.static "fftw")).libs.files
        ++ (s.query (with_static s.static "lapack")).libs.files
        ++ (s.query (with_static s.static "blas")).libs.files) ∧
    (s.plumed = false → "-D__PLUMED2" ∉ res.dflags) ∧
    (¬s.smm = Smm.libxsmm → "-D__LIBXSMM" ∉ res.dflags) ∧
    (¬s.smm = Smm.libsmm →
      "-D__HAS_smm_dnn" ∉ res.dflags ∧ "-D__HAS_smm_vec" ∉ res.dflags) := by
  obtain ⟨opt, ho, hres⟩ := translate_ok_inv s w pre res hE
  have hopt : opt = optflagsGcc ∨ opt = optflagsIntel := by
    unfold optflagsFor at ho
    by_cases h1 : s.compiler.name = "gcc"
    · rw [if_pos h1] at ho
      injection ho with h2
      exact Or.inl h2.symm
    · rw [if_neg h1] at ho
      by_cases h2 : s.compiler.name = "intel"
      · rw [if_pos h2] at ho
        injection ho with h3
        exact Or.inr h3.symm
      · rw [if_neg h2] at ho
        exact Option.noConfusion ho
  subst hres
  refine ⟨?_, ?_, ?_, ?_⟩
  · intro hm
    refine ⟨parallel_not_mem_dflags s (lpOf s w) pre hm,
      parallel_not_mem_dflags s (lpOf s w) pre hm, ?_, ?_, libsOf_no_mpi s (lpOf s w) hm⟩
    · show "-D__parallel" ∉ cflagsOf s opt (lpOf s w) pre
      unfold cflagsOf
      intro hx
      rcases List.mem_append.mp hx with h12 | h3
      rotate_left
      · exact parallel_not_mem_dflags s (lpOf s w) pre hm h3
      rcases List.mem_append.mp h12 with h1 | h2
      · rcases hopt with h | h <;> rw [h] at h1 <;> revert h1 <;> decide
      · rcases mem_ite_prop h2 with ⟨_, h⟩ | ⟨_, h⟩
        · revert h
          decide
        · exact absurd h (List.not_mem_nil _)
    · show "-D__parallel" ∉ cxxflagsOf s opt (lpOf s w) pre
      unfold cxxflagsOf
      intro hx
      rcases List.mem_append.mp hx with h12 | h3
      rotate_left
      · exact parallel_not_mem_dflags s (lpOf s w) pre hm h3
      rcases List.mem_append.mp h12 with h1 | h2
      · rcases hopt with h | h <;> rw [h] at h1 <;> revert h1 <;> decide
      · rcases mem_ite_prop h2 with ⟨_, h⟩ | ⟨_, h⟩
        · revert h
          decide
        · exact absurd h (List.not_mem_nil _)
  · intro hp
    exact plumed2_not_mem_dflags s (lpOf s w) pre hp
  · intro hs
    exact libxsmm_not_mem_dflags s (lpOf s w) pre hs
  · intro hs
    exact hasSmm_not_mem_dflags s (lpOf s w) pre hs

/-- Witness for C3 at a concrete sequential gcc Spec with smm=none and
plumed disabled. -/
theorem disabled_variant_defines_witness :
    "-D__parallel" ∉ (mkCp2kResult baseSpec optflagsGcc (lpOf baseSpec wNo) "/p").dflags ∧
    "-D__PLUMED2" ∉ (mkCp2kResult baseSpec optflagsGcc (lpOf baseSpec wNo) "/p").dflags ∧
    "-D__LIBXSMM" ∉ (mkCp2kResult baseSpec optflagsGcc (lpOf baseSpec wNo) "/p").dflags ∧
    (mkCp2kResult baseSpec optflagsGcc (lpOf baseSpec wNo) "/p").libs =
      (baseSpec.query (with_static baseSpec.static "libint")).libs.files
      ++ (match baseSpec.smm with
          | Smm.libsmm => [(lpOf baseSpec wNo).getD ""]
          | Smm.libxsmm => (baseSpec.query "libxsmm").libs.files
          | Smm.none => [])
      ++ (if baseSpec.plumed then (baseSpec.query "plumed").libs.files else [])
      ++ (baseSpec.query (with_static baseSpec.static "libxc:fortran")).libs.files
      ++ (baseSpec.query (with_static baseSpec.static "fftw")).libs.files
      ++ (baseSpec.query (with_static baseSpec.static "lapack")).libs.files
      ++ (baseSpec.query (with_static baseSpec.static "blas")).libs.files := by
  have h := disabled_variant_defines baseSpec wNo "/p"
    (mkCp2kResult baseSpec optflagsGcc (lpOf baseSpec wNo) "/p") rfl
  exact ⟨(h.1 rfl).1, h.2.1 rfl, h.2.2.1 (by decide), (h.1 rfl).2.2.2.2⟩

/-! ## C6 -/

/-- Pointwise set inclusion of all flag channels and the library list of
two translation results. -/
def FlagSubset (a b : Cp2kResult) : Prop :=
  a.dflags ⊆ b.dflags ∧ a.cppflags ⊆ b.cppflags ∧ a.cflags ⊆ b.cflags ∧
  a.cxxflags ⊆ b.cxxflags ∧ a.fcflags ⊆ b.fcflags ∧ a.ldflags ⊆ b.ldflags ∧
  a.libs ⊆ b.libs

/-- Disabling plumed only drops the trailing define of the dflags
channel. -/
theorem dflagsOf_plumed_subset (s : Cp2kSpec) (lp : Option String) (pre : String) :
    dflagsOf {s with plumed := false} lp pre ⊆ dflagsOf {s with plumed := true} lp pre := by
  intro x hx
  rcases List.mem_append.mp hx with h | h
  · exact List.mem_append.mpr (Or.inl h)
  · exact absurd h (List.not_mem_nil x)

/-- Disabling plumed only drops the middle plumed segment of the library
list. -/
theorem libsOf_plumed_subset (s : Cp2kSpec) (lp : Option String) :
    libsOf {s with plumed := false} lp ⊆ libsOf {s with plumed := true} lp := by
  intro x hx
  rcases List.mem_append.mp hx with hx | h
  rotate_left
  · exact List.mem_append.mpr (Or.inr h)
  rcases List.mem_append.mp hx with hx | h
  rotate_left
  · exact List.mem_append.mpr (Or.inl (List.mem_append.mpr (Or.inr h)))
  rcases List.mem_append.mp hx with hx | h
  rotate_left
  · exact List.mem_append.mpr (Or.inl (List.mem_append.mpr (Or.inl
      (List.mem_append.mpr (Or.inr h)))))
  rcases List.mem_append.mp hx with hx | h
  rotate_left
  · exact List.mem_append.mpr (Or.inl (List.mem_append.mpr (Or.inl
      (List.mem_append.mpr (Or.inl (List.mem_append.mpr (Or.inr h)))))))
  rcases List.mem_append.mp hx with h | h
  · exact List.mem_append.mpr (Or.inl (List.mem_append.mpr (Or.inl
      (List.mem_append.mpr (Or.inl (List.mem_append.mpr (Or.inl
        (List.mem_append.mpr (Or.inl h)))))))))
  · exact absurd h (List.not_mem_nil x)

/-- Toggling plumed on only adds flags: every channel of the translation
with plumed disabled is included in the one with plumed enabled. -/
theorem plumed_flag_subset (s : Cp2kSpec) (w : World) (pre : String) (r0 r1 : Cp2kResult)
    (h0 : translate {s with plumed := false} w pre = Except.ok r0)
    (h1 : translate {s with plumed := true} w pre = Except.ok r1) :
    FlagSubset r0 r1 := by
  obtain ⟨opt0, ho0, hr0⟩ := translate_ok_inv _ w pre r0 h0
  obtain ⟨opt1, ho1, hr1⟩ := translate_ok_inv _ w pre r1 h1
  have ho0' : optflagsFor s.compiler.name = Option.some opt0 := ho0
  have ho1' : optflagsFor s.compiler.name = Option.some opt1 := ho1
  have hoo : opt1 = opt0 := by
    rw [ho0'] at ho1'
    injection ho1' with h2
    exact h2.symm
  subst hoo
  subst hr0
  subst hr1
  refine ⟨?_, ?_, ?_, ?_, ?_, ?_, ?_⟩
  · exact dflagsOf_plumed_subset s (lpOf {s with plumed := false} w) pre
  · exact dflagsOf_plumed_subset s (lpOf {s with plumed := false} w) pre
  · intro x hx
    rcases List.mem_append.mp hx with h | h
    · exact List.mem_append.mpr (Or.inl h)
    · exact List.mem_append.mpr (Or.inr
        (dflagsOf_plumed_subset s (lpOf {s with plumed := false} w) pre h))
  · intro x hx
    rcases List.mem_append.mp hx with h | h
    · exact List.mem_append.mpr (Or.inl h)
    · exact List.mem_append.mpr (Or.inr
        (dflagsOf_plumed_subset s (lpOf {s with plumed := false} w) pre h))
  · intro x hx
    rcases List.mem_append.mp hx with h | h
    · exact List.mem_append.mpr (Or.inl h)
    · exact List.mem_append.mpr (Or.inr
        (dflagsOf_plumed_subset s (lpOf {s with plumed := false} w) pre h))
  · exact fun x hx => hx
  · exact libsOf_plumed_subset s (lpOf {s with plumed := false} w)

/-- Toggling openmp on only adds configure options. -/
theorem fftwOptions_openmp_subset (s : FftwSpec) (p : String) (o0 o1 : List String)
    (h0 : fftwOptions {s with openmp := false} p = Except.ok o0)
    (h1 : fftwOptions {s with openmp := true} p = Except.ok o1) : o0 ⊆ o1 := by
  have h0' : Except.ok (fftwBase s p ++ (if s.mpi = true then ["--enable-mpi"] else [])) =
      (Except.ok o0 : Except FftwErr (List String)) := h0
  injection h0' with h0''
  by_cases hca :
      (s.compilerName = "clang" && "-apple".data.isSuffixOf s.compilerVersion.data) = true
  · have h1' :
        (if (s.compilerName = "clang" &&
              "-apple".data.isSuffixOf s.compilerVersion.data) = true then
          (Except.error (FftwErr.installError "Apple clang does not support OpenMP") :
            Except FftwErr (List String))
        else
          Except.ok
            ((if vUpTo s.version [2] = true then
                ("CFLAGS=" ++ s.openmpFlag) :: (fftwBase s p ++ ["--enable-openmp"])
              else fftwBase s p ++ ["--enable-openmp"])
              ++ (if s.mpi = true then ["--enable-mpi"] else []))) = Except.ok o1 := h1
    rw [if_pos hca] at h1'
    exact Except.noConfusion h1'
  · have h1' :
        (if (s.compilerName = "clang" &&
              "-apple".data.isSuffixOf s.compilerVersion.data) = true then
          (Except.error (FftwErr.installError "Apple clang does not support OpenMP") :
            Except FftwErr (List String))
        else
          Except.ok
            ((if vUpTo s.version [2] = true then
                ("CFLAGS=" ++ s.openmpFlag) :: (fftwBase s p ++ ["--enable-openmp"])
              else fftwBase s p ++ ["--enable-openmp"])
              ++ (if s.mpi = true then ["--enable-mpi"] else []))) = Except.ok o1 := h1
    rw [if_neg hca] at h1'
    injection h1' with h1''
    rw [← h0'', ← h1'']
    intro x hx
    rcases List.mem_append.mp hx with h | h
    · refine List.mem_append.mpr (Or.inl ?_)
      by_cases hv : vUpTo s.version [2] = true
      · rw [if_pos hv]
        exact List.mem_cons_of_mem _ (List.mem_append.mpr (Or.inl h))
      · rw [if_neg hv]
        exact List.mem_append.mpr (Or.inl h)
    · exact List.mem_append.mpr (Or.inr h)

/-- Toggling mpi on only appends the --enable-mpi option. -/
theorem fftwOptions_mpi_subset (s : FftwSpec) (p : String) (o0 o1 : List String)
    (h0 : fftwOptions {s with mpi := false} p = Except.ok o0)
    (h1 : fftwOptions {s with mpi := true} p = Except.ok o1) : o0 ⊆ o1 := by
  by_cases hop : s.openmp = true
  · by_cases hca :
        (s.compilerName = "clang" && "-apple".data.isSuffixOf s.compilerVersion.data) = true
    · have h0' :
          (if s.openmp = true then
            (if (s.compilerName = "clang" &&
                  "-apple".data.isSuffixOf s.compilerVersion.data) = true then
              (Except.error (FftwErr.installError "Apple clang does not support OpenMP") :
                Except FftwErr (List String))
            else
              Except.ok
                ((if vUpTo s.version [2] = true then
                    ("CFLAGS=" ++ s.openmpFlag) :: (fftwBase s p ++ ["--enable-openmp"])
                  else fftwBase s p ++ ["--enable-openmp"]) ++ []))
          else Except.ok (fftwBase s p ++ [])) = Except.ok o0 := h0
      rw [if_pos hop, if_pos hca] at h0'
      exact Except.noConfusion h0'
    · have h0' :
          (if s.openmp = true then
            (if (s.compilerName = "clang" &&
                  "-apple".data.isSuffixOf s.compilerVersion.data) = true then
              (Except.error (FftwErr.installError "Apple clang does not support OpenMP") :
                Except FftwErr (List String))
            else
              Except.ok
                ((if vUpTo s.version [2] = true then
                    ("CFLAGS=" ++ s.openmpFlag) :: (fftwBase s p ++ ["--enable-openmp"])
                  else fftwBase s p ++ ["--enable-openmp"]) ++ []))
          else Except.ok (fftwBase s p ++ [])) = Except.ok o0 := h0
      have h1' :
          (if s.openmp = true then
            (if (s.compilerName = "clang" &&
                  "-apple".data.isSuffixOf s.compilerVersion.data) = true then
              (Except.error (FftwErr.installError "Apple clang does not support OpenMP") :
                Except FftwErr (List String))
            else
              Except.ok
                ((if vUpTo s.version [2] = true then
                    ("CFLAGS=" ++ s.openmpFlag) :: (fftwBase s p ++ ["--enable-openmp"])
                  else fftwBase s p ++ ["--enable-openmp"]) ++ ["--enable-mpi"]))
          else Except.ok (fftwBase s p ++ ["--enable-mpi"])) = Except.ok o1 := h1
      rw [if_pos hop, if_neg hca] at h0' h1'
      injection h0' with h0''
      injection h1' with h1''
      rw [← h0'', ← h1'']
      intro x hx
      rcases List.mem_append.mp hx with h | h
      · exact List.mem_append.mpr (Or.inl h)
      · exact absurd h (List.not_mem_nil x)
  · have h0' :
        (if s.openmp = true then
          (if (s.compilerName = "clang" &&
                "-apple".data.isSuffixOf s.compilerVersion.data) = true then
            (Except.error (FftwErr.installError "Apple clang does not support OpenMP") :
              Except FftwErr (List String))
          else
            Except.ok
              ((if vUpTo s.version [2] = true then
                  ("CFLAGS=" ++ s.openmpFlag) :: (fftwBase s p ++ ["--enable-openmp"])
                else fftwBase s p ++ ["--enable-openmp"]) ++ []))
        else Except.ok (fftwBase s p ++ [])) = Except.ok o0 := h0
    have h1' :
        (if s.openmp = true then
          (if (s.compilerName = "clang" &&
                "-apple".data.isSuffixOf s.compilerVersion.data) = true then
            (Except.error (FftwErr.installError "Apple clang does not support OpenMP") :
              Except FftwErr (List String))
          else
            Except.ok
              ((if vUpTo s.version [2] = true then
                  ("CFLAGS=" ++ s.openmpFlag) :: (fftwBase s p ++ ["--enable-openmp"])
                else fftwBase s p ++ ["--enable-openmp"]) ++ ["--enable-mpi"]))
        else Except.ok (fftwBase s p ++ ["--enable-mpi"])) = Except.ok o1 := h1
    rw [if_neg hop] at h0' h1'
    injection h0' with h0''
    injection h1' with h1''
    rw [← h0'', ← h1'']
    intro x hx
    rcases List.mem_append.mp hx with h | h
    · exact List.mem_append.mpr (Or.inl h)
    · exact absurd h (List.not_mem_nil x)

/-- C6 (amended to the purely additive optional boolean variants, with
cp2k plumed and fftw openmp and mpi as the instances): for two Specs that
differ only in the variant being disabled in one of them, whenever both
translations succeed the flag set of the disabled Spec is a set-subset of
the flag set of the enabled Spec. The claim as stated is false for the
cp2k static variant, which redirects the dependency queries instead of
adding flags. -/
theorem disabled_variant_subset :
    (∀ (s : Cp2kSpec) (w : World) (pre : String) (r0 r1 : Cp2kResult),
      translate {s with plumed := false} w pre = Except.ok r0 →
      translate {s with plumed := true} w pre = Except.ok r1 → FlagSubset r0 r1) ∧
    (∀ (s : FftwSpec) (p : String) (o0 o1 : List String),
      fftwOptions {s with openmp := false} p = Except.ok o0 →
      fftwOptions {s with openmp := true} p = Except.ok o1 → o0 ⊆ o1) ∧
    (∀ (s : FftwSpec) (p : String) (o0 o1 : List String),
      fftwOptions {s with mpi := false} p = Except.ok o0 →
      fftwOptions {s with mpi := true} p = Except.ok o1 → o0 ⊆ o1) :=
  ⟨plumed_flag_subset, fftwOptions_openmp_subset, fftwOptions_mpi_subset⟩

/-- The options of an fftw configure result, empty on failure. -/
def optsOf : Except FftwErr (List String) → List String
  | Except.ok o => o
  | Except.error _ => []

/-- Witness for C6 at concrete cp2k and fftw Specs. -/
theorem disabled_variant_subset_witness :
    FlagSubset
      (mkCp2kResult {baseSpec with plumed := false} optflagsGcc
        (lpOf {baseSpec with plumed := false} wNo) "/p")
      (mkCp2kResult {baseSpec with plumed := true} optflagsGcc
        (lpOf {baseSpec with plumed := true} wNo) "/p") ∧
    optsOf (fftwOptions {fftw215 with openmp := false} "/o") ⊆
      optsOf (fftwOptions {fftw215 with openmp := true} "/o") ∧
    optsOf (fftwOptions {fftw215 with mpi := false} "/o") ⊆
      optsOf (fftwOptions {fftw215 with mpi := true} "/o") := by
  refine ⟨?_, ?_, ?_⟩
  · exact disabled_variant_subset.1 baseSpec wNo "/p" _ _ rfl rfl
  · exact disabled_variant_subset.2.1 fftw215 "/o" _ _ rfl rfl
  · exact disabled_variant_subset.2.2 fftw215 "/o" _ _ rfl rfl

/-- A dependency record for the shared lapack of a ~static spec. -/
def depShared : DepInfo := ⟨"-I/l", ⟨["/l/liblapack.so"]⟩, "/l", [3, 7], ""⟩

/-- A concrete cp2k Spec whose plain lapack query returns the shared
library and whose lapack:static query returns the static one. -/
def c6staticSpec : Cp2kSpec :=
  ⟨[5, 1], "linux-x86_64", false, false, false, Smm.none, gccC, false, false,
   fun q => if q = "lapack" then depShared else depA⟩

/-- C6 counterexample: two Specs differing only in the boolean static
variant produce flag sets that are not subsets: disabling static makes
the recipe query the shared dependency libraries, which are absent from
the flag set of the static Spec. -/
theorem disabled_variant_subset_cex :
    translate {c6staticSpec with static := false} wNo "/p" =
      Except.ok (mkCp2kResult {c6staticSpec with static := false} optflagsGcc
        Option.none "/p") ∧
    translate {c6staticSpec with static := true} wNo "/p" =
      Except.ok (mkCp2kResult {c6staticSpec with static := true} optflagsGcc
        Option.none "/p") ∧
    "/l/liblapack.so" ∈
      (mkCp2kResult {c6staticSpec with static := false} optflagsGcc Option.none "/p").libs ∧
    "/l/liblapack.so" ∉
      (mkCp2kResult {c6staticSpec with static := true} optflagsGcc Option.none "/p").libs ∧
    ¬FlagSubset
      (mkCp2kResult {c6staticSpec with static := false} optflagsGcc Option.none "/p")
      (mkCp2kResult {c6staticSpec with static := true} optflagsGcc Option.none "/p") := by
  refine ⟨rfl, rfl, by decide, by decide, ?_⟩
  intro h
  have hm : "/l/liblapack.so" ∈
      (mkCp2kResult {c6staticSpec with static := false} optflagsGcc
        Option.none "/p").libs := by decide
  have hn : "/l/liblapack.so" ∉
      (mkCp2kResult {c6staticSpec with static := true} optflagsGcc
        Option.none "/p").libs := by decide
  exact hn (h.2.2.2.2.2.2 hm)

/-! ## C7 -/

/-- The characters of a sequence of written strings, in order. -/
def writesData : List String → List Char
  | [] => []
  | w :: ws => w.data ++ writesData ws

/-- The lines of the generated makefile fragment: the written strings
split at newlines. -/
def mkfLines (res : Cp2kResult) : List (List Char) := splitLines (writesData res.writes)

/-- Well-formedness of the values interpolated into the fragment: none of
the compiler commands or joined flag strings contains a newline. -/
def NoNL (s : Cp2kSpec) (res : Cp2kResult) : Prop :=
  '\n' ∉ s.compiler.cc.data ∧ '\n' ∉ (fcOf s).data ∧
  '\n' ∉ (joinSp res.dflags).data ∧ '\n' ∉ (joinSp res.cppflags).data ∧
  '\n' ∉ (joinSp res.cflags).data ∧ '\n' ∉ (joinSp res.cxxflags).data ∧
  '\n' ∉ (joinSp res.fcflags).data ∧ '\n' ∉ (joinSp res.ldflags).data ∧
  '\n' ∉ (joinSp res.libs).data

/-- splitLines never returns an empty list of lines. -/
theorem splitLines_ne_nil (l : List Char) : splitLines l ≠ [] := by
  cases l with
  | nil => simp [splitLines]
  | cons c rest =>
    unfold splitLines
    by_cases hc : c = '\n'
    · rw [if_pos hc]
      simp
    · rw [if_neg hc]
      simp

/-- A character list ending in a newline splits into at least two
lines. -/
theorem splitLines_nl_len (a : List Char) : 2 ≤ (splitLines (a ++ ['\n'])).length := by
  induction a with
  | nil => simp [splitLines]
  | cons c a ih =>
    show 2 ≤ (splitLines (c :: (a ++ ['\n']))).length
    by_cases hc : c = '\n'
    · have e : splitLines (c :: (a ++ ['\n'])) = [] :: splitLines (a ++ ['\n']) := by
        rw [hc]
        exact splitLines_newline _
      rw [e]
      simp only [List.length_cons]
      omega
    · have e : splitLines (c :: (a ++ ['\n'])) =
          (c :: (splitLines (a ++ ['\n'])).headD []) ::
            (splitLines (a ++ ['\n'])).tail := by
        simp [splitLines, hc]
      rw [e]
      have h2 : (splitLines (a ++ ['\n'])).tail.length =
          (splitLines (a ++ ['\n'])).length - 1 := List.length_tail _
      simp only [List.length_cons, h2]
      omega

/-- Splitting distributes over an append whose first part ends with a
newline: the lines of the first part, except its trailing empty line,
followed by the lines of the rest. -/
theorem splitLines_append_nl (a : List Char) (b : List Char) :
    splitLines ((a ++ ['\n']) ++ b) =
      (splitLines (a ++ ['\n'])).dropLast ++ splitLines b := by
  induction a with
  | nil =>
    show splitLines ('\n' :: b) = (splitLines ['\n']).dropLast ++ splitLines b
    rw [splitLines_newline]
    rfl
  | cons c a ih =>
    show splitLines (c :: ((a ++ ['\n']) ++ b)) =
      (splitLines (c :: (a ++ ['\n']))).dropLast ++ splitLines b
    by_cases hc : c = '\n'
    · subst hc
      rw [splitLines_newline, splitLines_newline, ih]
      obtain ⟨y, ys, hL⟩ : ∃ y ys, splitLines (a ++ ['\n']) = y :: ys := by
        cases hL : splitLines (a ++ ['\n']) with
        | nil => exact absurd hL (splitLines_ne_nil _)
        | cons y ys => exact ⟨y, ys, rfl⟩
      rw [hL]
      rfl
    · have hlen := splitLines_nl_len a
      obtain ⟨y1, y2, ys, hL⟩ : ∃ y1 y2 ys, splitLines (a ++ ['\n']) = y1 :: y2 :: ys := by
        cases hL : splitLines (a ++ ['\n']) with
        | nil => exact absurd hL (splitLines_ne_nil _)
        | cons y1 t =>
          cases t with
          | nil =>
            rw [hL] at hlen
            simp at hlen
          | cons y2 ys => exact ⟨y1, y2, ys, rfl⟩
      have e1 : splitLines (c :: ((a ++ ['\n']) ++ b)) =
          (c :: (splitLines ((a ++ ['\n']) ++ b)).headD []) ::
            (splitLines ((a ++ ['\n']) ++ b)).tail := by
        simp [splitLines, hc]
      have e2 : splitLines (c :: (a ++ ['\n'])) =
          (c :: (splitLines (a ++ ['\n'])).headD []) ::
            (splitLines (a ++ ['\n'])).tail := by
        simp [splitLines, hc]
      rw [e1, e2, ih, hL]
      rfl

/-- The lines of a sequence of newline terminated writes whose own lines
are each blank or KEY = value are themselves blank or KEY = value. -/
theorem splitLines_join_good (ws : List String)
    (h : ∀ w ∈ ws, (∃ a, w.data = a ++ ['\n']) ∧
      (∀ l ∈ splitLines w.data, l = [] ∨ IsKVLine l)) :
    ∀ l ∈ splitLines (writesData ws), l = [] ∨ IsKVLine l := by
  induction ws with
  | nil =>
    intro l hl
    have h2 : l ∈ [([] : List Char)] := hl
    simp only [List.mem_singleton] at h2
    exact Or.inl h2
  | cons w ws ih =>
    intro l hl
    obtain ⟨⟨a, ha⟩, hgood⟩ := h w (List.mem_cons_self w ws)
    have hwd : writesData (w :: ws) = w.data ++ writesData ws := rfl
    rw [hwd, ha, splitLines_append_nl a (writesData ws)] at hl
    rcases List.mem_append.mp hl with h1 | h2
    · refine hgood l ?_
      rw [ha]
      exact List.dropLast_subset _ h1
    · exact ih (fun w2 hw2 => h w2 (List.mem_cons_of_mem w hw2)) l h2

/-- No newline in an appended character list with none in each part. -/
theorem noNL_app (a b : List Char) (ha : '\n' ∉ a) (hb : '\n' ∉ b) : '\n' ∉ a ++ b := by
  intro hm
  rcases List.mem_append.mp hm with h | h
  · exact ha h
  · exact hb h

/-- The lines of a single newline terminated body. -/
theorem splitLines_body_one (body : List Char) (h : '\n' ∉ body) :
    splitLines (body ++ ['\n']) = [body, []] :=
  splitLines_append body [] h

/-- The lines of a double newline terminated body. -/
theorem splitLines_body_two (body : List Char) (h : '\n' ∉ body) :
    splitLines (body ++ ['\n', '\n']) = [body, [], []] := by
  have h1 : body ++ ['\n', '\n'] = body ++ '\n' :: ['\n'] := rfl
  rw [h1, splitLines_append body _ h]
  rfl

/-- No newline in an appended string with none in each part. -/
theorem noNL_str_app (a b : String) (ha : '\n' ∉ a.data) (hb : '\n' ∉ b.data) :
    '\n' ∉ ((a ++ b) : String).data := by
  rw [str_data_append]
  exact noNL_app a.data b.data ha hb

/-- A key value write terminated by one newline contributes only a KEY =
value line and a blank line. -/
theorem good_write1 (p v : String) (pk : List Char)
    (hpe : p.data = pk ++ [' ', '=', ' ']) (hk : pk ≠ [])
    (hp : '\n' ∉ p.data) (hv : '\n' ∉ v.data) :
    (∃ a, ((p ++ v ++ "\n") : String).data = a ++ ['\n']) ∧
    (∀ l ∈ splitLines ((p ++ v ++ "\n") : String).data, l = [] ∨ IsKVLine l) := by
  have hkv : IsKVLine (p ++ v).data := by
    rw [str_data_append, hpe, List.append_assoc]
    exact ⟨pk, v.data, rfl, hk⟩
  have hb : '\n' ∉ ((p ++ v) : String).data := noNL_app p.data v.data hp hv
  have he : ((p ++ v ++ "\n") : String).data = (p ++ v).data ++ ['\n'] := rfl
  refine ⟨⟨(p ++ v).data, he⟩, ?_⟩
  intro l hl
  rw [he, splitLines_body_one _ hb] at hl
  rcases List.mem_cons.mp hl with h1 | h1
  · exact Or.inr (by rw [h1]; exact hkv)
  · simp only [List.mem_cons, List.not_mem_nil, or_false] at h1
    exact Or.inl h1

/-- A key value write terminated by two newlines contributes only a KEY =
value line and blank lines. -/
theorem good_write2 (p v : String) (pk : List Char)
    (hpe : p.data = pk ++ [' ', '=', ' ']) (hk : pk ≠ [])
    (hp : '\n' ∉ p.data) (hv : '\n' ∉ v.data) :
    (∃ a, ((p ++ v ++ "\n\n") : String).data = a ++ ['\n']) ∧
    (∀ l ∈ splitLines ((p ++ v ++ "\n\n") : String).data, l = [] ∨ IsKVLine l) := by
  have hkv : IsKVLine (p ++ v).data := by
    rw [str_data_append, hpe, List.append_assoc]
    exact ⟨pk, v.data, rfl, hk⟩
  have hb : '\n' ∉ ((p ++ v) : String).data := noNL_app p.data v.data hp hv
  have he : ((p ++ v ++ "\n\n") : String).data = (p ++ v).data ++ ['\n', '\n'] := rfl
  have he2 : ((p ++ v ++ "\n\n") : String).data =
      ((p ++ v).data ++ ['\n']) ++ ['\n'] := by
    rw [List.append_assoc]
    exact he
  refine ⟨⟨(p ++ v).data ++ ['\n'], he2⟩, ?_⟩
  intro l hl
  rw [he, splitLines_body_two _ hb] at hl
  rcases List.mem_cons.mp hl with h1 | h1
  · exact Or.inr (by rw [h1]; exact hkv)
  · simp only [List.mem_cons, List.not_mem_nil, or_false] at h1
    rcases h1 with h1 | h1 <;> exact Or.inl h1

/-- A fully literal key value write contributes only a KEY = value line
and a blank line. -/
theorem good_write_lit (p : String) (body : List Char) (he : p.data = body ++ ['\n'])
    (hb : '\n' ∉ body) (hkv : IsKVLine body) :
    (∃ a, p.data = a ++ ['\n']) ∧ (∀ l ∈ splitLines p.data, l = [] ∨ IsKVLine l) := by
  refine ⟨⟨body, he⟩, ?_⟩
  intro l hl
  rw [he, splitLines_body_one _ hb] at hl
  rcases List.mem_cons.mp hl with h1 | h1
  · exact Or.inr (by rw [h1]; exact hkv)
  · simp only [List.mem_cons, List.not_mem_nil, or_false] at h1
    exact Or.inl h1

/-- A key value write whose key part carries a literal value prefix and
whose tail is a literal ending in a newline contributes only a KEY =
value line and a blank line. -/
theorem good_write_sfx (p v q : String) (pk pv0 qb : List Char)
    (hpe : p.data = pk ++ [' ', '=', ' '] ++ pv0) (hk : pk ≠ [])
    (hqe : q.data = qb ++ ['\n'])
    (hp : '\n' ∉ p.data) (hv : '\n' ∉ v.data) (hqb : '\n' ∉ qb) :
    (∃ a, ((p ++ v ++ q) : String).data = a ++ ['\n']) ∧
    (∀ l ∈ splitLines ((p ++ v ++ q) : String).data, l = [] ∨ IsKVLine l) := by
  have hkv : IsKVLine ((p ++ v).data ++ qb) := by
    rw [str_data_append, hpe]
    simp only [List.append_assoc]
    exact ⟨pk, pv0 ++ (v.data ++ qb), rfl, hk⟩
  have he : ((p ++ v ++ q) : String).data = ((p ++ v).data ++ qb) ++ ['\n'] := by
    show (p ++ v).data ++ q.data = _
    rw [hqe, ← List.append_assoc]
  have hb : '\n' ∉ (p ++ v).data ++ qb :=
    noNL_app _ _ (noNL_app p.data v.data hp hv) hqb
  refine ⟨⟨(p ++ v).data ++ qb, he⟩, ?_⟩
  intro l hl
  rw [he, splitLines_body_one _ hb] at hl
  rcases List.mem_cons.mp hl with h1 | h1
  · exact Or.inr (by rw [h1]; exact hkv)
  · simp only [List.mem_cons, List.not_mem_nil, or_false] at h1
    exact Or.inl h1

/-- C7 (amended: with the plumed variant enabled the fragment begins
with an include directive line, which is not of the KEY = value form):
for every cp2k Spec with plumed disabled whose interpolated values
contain no newline, every non blank line of the generated
build-configuration fragment is a plain KEY = value line. -/
theorem makefile_kv_lines (s : Cp2kSpec) (w : World) (pre : String) (res : Cp2kResult)
    (hE : translate s w pre = Except.ok res) (hp : s.plumed = false)
    (hn : NoNL s res) :
    ∀ l ∈ mkfLines res, l ≠ [] → IsKVLine l := by
  obtain ⟨opt, ho, hres⟩ := translate_ok_inv s w pre res hE
  subst hres
  obtain ⟨n1, n2, n3, n4, n5, n6, n7, n8, n9⟩ := hn
  intro l hl hne
  unfold mkfLines at hl
  by_cases hi : s.compiler.name = "intel"
  · have hw : (mkCp2kResult s opt (lpOf s w) pre).writes =
        ["CC = " ++ s.compiler.cc ++ "\n",
         "CPP = # " ++ s.compiler.cc ++ " -P\n",
         "AR = xiar -r\n",
         "FC = " ++ fcOf s ++ "\n",
         "LD = " ++ fcOf s ++ "\n\n",
         "DFLAGS = " ++ joinSp (dflagsOf s (lpOf s w) pre) ++ "\n\n",
         "CPPFLAGS = " ++ joinSp (cppflagsOf s (lpOf s w) pre) ++ "\n\n",
         "CFLAGS = " ++ joinSp (cflagsOf s opt (lpOf s w) pre) ++ "\n\n",
         "CXXFLAGS = " ++ joinSp (cxxflagsOf s opt (lpOf s w) pre) ++ "\n\n",
         "FCFLAGS = " ++ joinSp (fcflagsOf s opt (lpOf s w) pre) ++ "\n\n",
         "LDFLAGS = " ++ joinSp (ldflagsOf s) ++ "\n\n",
         "LDFLAGS_C = " ++ (joinSp (ldflagsOf s) ++ " -nofor_main") ++ "\n\n",
         "LIBS = " ++ joinSp (libsOf s (lpOf s w)) ++ "\n\n"] := by
      show writesOf s opt (lpOf s w) pre = _
      unfold writesOf
      rw [hp]
      simp [hi]
    rw [hw] at hl
    refine (splitLines_join_good _ ?_ l hl).resolve_left hne
    intro w2 hw2
    simp only [List.mem_cons, List.not_mem_nil, or_false] at hw2
    rcases hw2 with rfl | rfl | rfl | rfl | rfl | rfl | rfl | rfl | rfl | rfl | rfl | rfl | rfl
    · exact good_write1 "CC = " s.compiler.cc ['C', 'C'] (by decide) (by decide)
        (by decide) n1
    · exact good_write_sfx "CPP = # " s.compiler.cc " -P\n" ['C', 'P', 'P'] ['#', ' ']
        " -P".data (by decide) (by decide) (by decide) (by decide) n1 (by decide)
    · exact good_write_lit "AR = xiar -r\n" "AR = xiar -r".data (by decide) (by decide)
        (isKV_of_shape ['A', 'R'] "xiar -r".data (by decide))
    · exact good_write1 "FC = " (fcOf s) ['F', 'C'] (by decide) (by decide) (by decide) n2
    · exact good_write2 "LD = " (fcOf s) ['L', 'D'] (by decide) (by decide) (by decide) n2
    · exact good_write2 "DFLAGS = " (joinSp (dflagsOf s (lpOf s w) pre))
        ['D', 'F', 'L', 'A', 'G', 'S'] (by decide) (by decide) (by decide) n3
    · exact good_write2 "CPPFLAGS = " (joinSp (cppflagsOf s (lpOf s w) pre))
        ['C', 'P', 'P', 'F', 'L', 'A', 'G', 'S'] (by decide) (by decide) (by decide) n4
    · exact good_write2 "CFLAGS = " (joinSp (cflagsOf s opt (lpOf s w) pre))
        ['C', 'F', 'L', 'A', 'G', 'S'] (by decide) (by decide) (by decide) n5
    · exact good_write2 "CXXFLAGS = " (joinSp (cxxflagsOf s opt (lpOf s w) pre))
        ['C', 'X', 'X', 'F', 'L', 'A', 'G', 'S'] (by decide) (by decide) (by decide) n6
    · exact good_write2 "FCFLAGS = " (joinSp (fcflagsOf s opt (lpOf s w) pre))
        ['F', 'C', 'F', 'L', 'A', 'G', 'S'] (by decide) (by decide) (by decide) n7
    · exact good_write2 "LDFLAGS = " (joinSp (ldflagsOf s))
        ['L', 'D', 'F', 'L', 'A', 'G', 'S'] (by decide) (by decide) (by decide) n8
    · exact good_write2 "LDFLAGS_C = " (joinSp (ldflagsOf s) ++ " -nofor_main")
        ['L', 'D', 'F', 'L', 'A', 'G', 'S', '_', 'C'] (by decide) (by decide) (by decide)
        (noNL_str_app (joinSp (ldflagsOf s)) " -nofor_main" n8 (by decide))
    · exact good_write2 "LIBS = " (joinSp (libsOf s (lpOf s w)))
        ['L', 'I', 'B', 'S'] (by decide) (by decide) (by decide) n9
  · have hw : (mkCp2kResult s opt (lpOf s w) pre).writes =
        ["CC = " ++ s.compiler.cc ++ "\n",
         "CPP = # " ++ s.compiler.cc ++ " -E\n",
         "AR = ar -r\n",
         "FC = " ++ fcOf s ++ "\n",
         "LD = " ++ fcOf s ++ "\n\n",
         "DFLAGS = " ++ joinSp (dflagsOf s (lpOf s w) pre) ++ "\n\n",
         "CPPFLAGS = " ++ joinSp (cppflagsOf s (lpOf s w) pre) ++ "\n\n",
         "CFLAGS = " ++ joinSp (cflagsOf s opt (lpOf s w) pre) ++ "\n\n",
         "CXXFLAGS = " ++ joinSp (cxxflagsOf s opt (lpOf s w) pre) ++ "\n\n",
         "FCFLAGS = " ++ joinSp (fcflagsOf s opt (lpOf s w) pre) ++ "\n\n",
         "LDFLAGS = " ++ joinSp (ldflagsOf s) ++ "\n\n",
         "LIBS = " ++ joinSp (libsOf s (lpOf s w)) ++ "\n\n"] := by
      show writesOf s opt (lpOf s w) pre = _
      unfold writesOf
      rw [hp]
      simp [hi]
    rw [hw] at hl
    refine (splitLines_join_good _ ?_ l hl).resolve_left hne
    intro w2 hw2
    simp only [List.mem_cons, List.not_mem_nil, or_false] at hw2
    rcases hw2 with rfl | rfl | rfl | rfl | rfl | rfl | rfl | rfl | rfl | rfl | rfl | rfl
    · exact good_write1 "CC = " s.compiler.cc ['C', 'C'] (by decide) (by decide)
        (by decide) n1
    · exact good_write_sfx "CPP = # " s.compiler.cc " -E\n" ['C', 'P', 'P'] ['#', ' ']
        " -E".data (by decide) (by decide) (by decide) (by decide) n1 (by decide)
    · exact good_write_lit "AR = ar -r\n" "AR = ar -r".data (by decide) (by decide)
        (isKV_of_shape ['A', 'R'] "ar -r".data (by decide))
    · exact good_write1 "FC = " (fcOf s) ['F', 'C'] (by decide) (by decide) (by decide) n2
    · exact good_write2 "LD = " (fcOf s) ['L', 'D'] (by decide) (by decide) (by decide) n2
    · exact good_write2 "DFLAGS = " (joinSp (dflagsOf s (lpOf s w) pre))
        ['D', 'F', 'L', 'A', 'G', 'S'] (by decide) (by decide) (by decide) n3
    · exact good_write2 "CPPFLAGS = " (joinSp (cppflagsOf s (lpOf s w) pre))
        ['C', 'P', 'P', 'F', 'L', 'A', 'G', 'S'] (by decide) (by decide) (by decide) n4
    · exact good_write2 "CFLAGS = " (joinSp (cflagsOf s opt (lpOf s w) pre))
        ['C', 'F', 'L', 'A', 'G', 'S'] (by decide) (by decide) (by decide) n5
    · exact good_write2 "CXXFLAGS = " (joinSp (cxxflagsOf s opt (lpOf s w) pre))
        ['C', 'X', 'X', 'F', 'L', 'A', 'G', 'S'] (by decide) (by decide) (by decide) n6
    · exact good_write2 "FCFLAGS = " (joinSp (fcflagsOf s opt (lpOf s w) pre))
        ['F', 'C', 'F', 'L', 'A', 'G', 'S'] (by decide) (by decide) (by decide) n7
    · exact good_write2 "LDFLAGS = " (joinSp (ldflagsOf s))
        ['L', 'D', 'F', 'L', 'A', 'G', 'S'] (by decide) (by decide) (by decide) n8
    · exact good_write2 "LIBS = " (joinSp (libsOf s (lpOf s w)))
        ['L', 'I', 'B', 'S'] (by decide) (by decide) (by decide) n9

/-- A concrete cp2k Spec with plumed enabled and gcc. -/
def plumedSpec : Cp2kSpec :=
  ⟨[5, 1], "linux-x86_64", true, false, true, Smm.none, gccC, false, false, fun _ => depA⟩

theorem makefile_kv_lines_witness : IsKVLine ("CC = gcc".data) :=
  makefile_kv_lines baseSpec wNo "/p"
    (mkCp2kResult baseSpec optflagsGcc (lpOf baseSpec wNo) "/p") rfl rfl
    (by unfold NoNL; decide) ("CC = gcc".data) (by decide) (by decide)

/-- C7 counterexample to the unamended sentence: with plumed enabled the
translation succeeds, the interpolated values contain no newline, and yet
the first line of the fragment is an include directive, which is neither
blank nor of the KEY = value form. -/
theorem makefile_kv_lines_cex :
    translate plumedSpec wNo "/p" =
      Except.ok (mkCp2kResult plumedSpec optflagsGcc (lpOf plumedSpec wNo) "/p") ∧
    NoNL plumedSpec (mkCp2kResult plumedSpec optflagsGcc (lpOf plumedSpec wNo) "/p") ∧
    "include /a/lib/plumed/src/lib/Plumed.inc".data ∈
      mkfLines (mkCp2kResult plumedSpec optflagsGcc (lpOf plumedSpec wNo) "/p") ∧
    "include /a/lib/plumed/src/lib/Plumed.inc".data ≠ [] ∧
    ¬ IsKVLine ("include /a/lib/plumed/src/lib/Plumed.inc".data) :=
  ⟨rfl, by unfold NoNL; decide, by decide, by decide,
   not_isKV_of_not_containsSep _ (by decide)⟩

end Spack
